import Mathlib

/-!
terraform-lock-checker: shallow embedding of `main.go`

The program is a single Go file.  It talks to the outside world through
standard input, standard output, the logger, the process environment and two
cloud SDKs.  Here every such effect is explicit:

* `World σ` carries the lines still to be read from standard input, the process
  environment, the state `σ` of the remote backend and the trace of events
  (writes and SDK calls) in the order in which they happen;
* the SDK calls are fields of `AWS σ` and `Azure σ`, arbitrary functions of the
  backend state, so that every theorem holds for every backend behaviour;
* `log.Fatalf` and a nil-pointer dereference end the run early (`Ctl`).

What lies outside `main.go` is taken as follows.  Standard input is the list of
strings that the successive `ReadString` calls return, the empty string once it
is exhausted.  The blob pager is the finite list of the results of its
`NextPage` calls.  `dynamodbattribute.UnmarshalListOfMaps` is written out for
the one target type the program uses, `[]DynamoDBLock`: fields are found by
exact name, then by case folding, and attributes that match no field are
skipped.  Log lines are recorded without the time stamp of the logger.
-/

namespace TerraformLockChecker

/-! ## Go strings -/

/-- Go `unicode.IsSpace`: the Unicode White_Space runes. -/
def IsSpace (r : Char) : Bool :=
  let n := r.toNat
  n == 0x09 || n == 0x0A || n == 0x0B || n == 0x0C || n == 0x0D || n == 0x20 ||
  n == 0x85 || n == 0xA0 || n == 0x1680 || (0x2000 ≤ n && n ≤ 0x200A) ||
  n == 0x2028 || n == 0x2029 || n == 0x202F || n == 0x205F || n == 0x3000

/-- Go `strings.TrimSpace`: leading and trailing white space removed. -/
def TrimSpace (s : String) : String :=
  ⟨(s.data.dropWhile IsSpace).rdropWhile IsSpace⟩

/-- Go `unicode.ToLower` on the runes whose lower case is an ASCII letter: the
letters `A`..`Z`, the Kelvin sign U+212A (lower case `k`) and U+0130 (lower case
`i`).  Go maps every other rune to a non-ASCII rune or to itself; such a rune is
left in place, which cannot be told apart once the result is compared with an
ASCII literal, the only use `main.go` makes of it. -/
def toLowerRune (r : Char) : Char :=
  let n := r.toNat
  if 65 ≤ n ∧ n ≤ 90 then Char.ofNat (n + 32)
  else if n = 0x212A then 'k'
  else if n = 0x0130 then 'i'
  else r

/-- Go `strings.ToLower`. -/
def ToLower (s : String) : String :=
  ⟨s.data.map toLowerRune⟩

/-- Go `strings.HasPrefix`. -/
def HasPrefix (s start : String) : Bool :=
  start.data.isPrefixOf s.data

/-- Go `strings.Contains`. -/
def Contains (s sub : String) : Prop :=
  sub.data <:+: s.data

instance (s sub : String) : Decidable (Contains s sub) := by
  unfold Contains; infer_instance

/-! ## Events and the world -/

/-- One observable step of a run, in program order. -/
inductive Event where
  /-- `fmt.Print`, `fmt.Println`, `fmt.Printf`: text written to standard output. -/
  | stdout (text : String)
  /-- `log.Printf`, `log.Fatalf`: a message handed to the standard logger. -/
  | logged (text : String)
  /-- `session.NewSession` with the given region. -/
  | newSession (region : String)
  /-- `svc.Scan` on a table, with the exclusive start key of the request. -/
  | scan (tableName : String) (exclusiveStartKey : Option Nat)
  /-- `svc.DeleteItem` on a table with key `LockID`. -/
  | deleteItem (tableName lockID : String)
  /-- `azblob.NewSharedKeyCredential`. -/
  | newSharedKeyCredential (accountName accountKey : String)
  /-- `azblob.NewServiceClientWithSharedKeyCredential`. -/
  | newServiceClient (serviceURL : String)
  /-- `pager.NextPage` of the flat blob pager of a container. -/
  | nextPage (containerName : String)
  /-- `blobClient.Delete` of a named blob of a container. -/
  | deleteBlob (containerName blobName : String)
  deriving DecidableEq, Repr

/-- State of a run: what standard input still holds (one element per call of
`ReadString`), the process environment, the remote backend and the events so
far. -/
structure World (σ : Type) where
  stdin : List String
  env : List (String × String)
  backend : σ
  trace : List Event

/-- How a function of the program hands control back. -/
inductive Ctl where
  /-- The function returned to its caller. -/
  | returned
  /-- `os.Exit code`, reached through `log.Fatalf`. -/
  | exited (code : Nat)
  /-- A run-time panic (nil pointer dereference). -/
  | panicked
  deriving DecidableEq, Repr

namespace World

variable {σ : Type}

/-- Append an event to the trace. -/
def emit (w : World σ) (e : Event) : World σ :=
  { w with trace := w.trace ++ [e] }

/-- Go `fmt.Print` and `fmt.Printf` with the formatted text. -/
def Print (w : World σ) (text : String) : World σ :=
  w.emit (.stdout text)

/-- Go `fmt.Println`. -/
def Println (w : World σ) (text : String) : World σ :=
  w.emit (.stdout (text ++ "\n"))

/-- Go `log.Printf`: the logger writes the message on a line of its own. -/
def logPrintf (w : World σ) (text : String) : World σ :=
  w.emit (.logged text)

/-- Go `reader.ReadString('\n')` with the error dropped: the next line of
standard input, delimiter included, or the empty string at end of input. -/
def ReadString (w : World σ) : String × World σ :=
  match w.stdin with
  | [] => ("", w)
  | l :: rest => (l, { w with stdin := rest })

/-- Go `os.Getenv`: the value of the variable, empty when unset. -/
def Getenv (w : World σ) (key : String) : String :=
  (w.env.lookup key).getD ""

/-- Go `os.Setenv` with the error dropped: a value holding a NUL byte is
refused and leaves the environment as it was. -/
def Setenv (w : World σ) (key value : String) : World σ :=
  if value.data.contains (Char.ofNat 0) then w
  else { w with env := (key, value) :: w.env }

end World

/-- Go `log.Fatalf`, the part before `os.Exit(1)`: the message is logged. -/
def World.logFatalf {σ : Type} (w : World σ) (text : String) : World σ :=
  w.emit (.logged text)

/-- Events of `w'` that were not yet in `w`, for `w'` a later state of `w`. -/
def newEvents {σ : Type} (w w' : World σ) : List Event :=
  w'.trace.drop w.trace.length

/-! ## The DynamoDB side -/

/-- A `dynamodb.AttributeValue` by the member that is set: string, number,
boolean, null, or one of the remaining kinds (binary, list, map and the three
set kinds), none of which decodes into a Go `string`. -/
inductive AttributeValue where
  | S (s : String)
  | N (n : String)
  | BOOL (b : Bool)
  | NULL
  | other
  deriving DecidableEq, Repr

/-- A scanned item, `map[string]*dynamodb.AttributeValue`, as the list of its
attributes in the order in which Go happens to range over the map. -/
abbrev Item := List (String × AttributeValue)

/-- The part of `dynamodb.ScanOutput` that matters: the items of the page and
the key from which the next page would start (absent on the last page). -/
structure ScanOutput where
  Items : List Item
  LastEvaluatedKey : Option Nat
  deriving DecidableEq, Repr

/-- Go `type DynamoDBLock struct` (main.go, lines 19-23). -/
structure DynamoDBLock where
  LockID : String
  Info : String
  Operation : String
  deriving DecidableEq, Repr

/-- The AWS SDK as the program uses it, over a remote state `σ`.  `NewSession`
and the two calls may fail (`some err`, `Except.error err`), and the calls may
change the remote state in any way. -/
structure AWS (σ : Type) where
  NewSession : String → Option String
  Scan : σ → String → Option Nat → Except String ScanOutput × σ
  DeleteItem : σ → String → String → Option String × σ

/-- The fields of `DynamoDBLock`, in declaration order. -/
inductive Field where
  | LockID
  | Info
  | Operation
  deriving DecidableEq, Repr

/-- Name under which a field is decoded (its `json` tag, equal to its name). -/
def Field.Name : Field → String
  | .LockID => "LockID"
  | .Info => "Info"
  | .Operation => "Operation"

/-- The three fields in declaration order. -/
def Field.all : List Field := [.LockID, .Info, .Operation]

/-- Whether rune `c` lies in the simple case-folding orbit of the ASCII rune
`a` (Go `unicode.SimpleFold`): the rune itself, its other ASCII case, and for
`k` and `s` the Kelvin sign U+212A and the long s U+017F. -/
def foldsTo (a c : Char) : Bool :=
  c == a || (a.isAlpha && c.isAlpha && c.toLower == a.toLower) ||
  (a.toLower == 'k' && c == Char.ofNat 0x212A) ||
  (a.toLower == 's' && c == Char.ofNat 0x017F)

/-- Go `strings.EqualFold fieldName name` for an ASCII `fieldName`. -/
def EqualFold (fieldName name : String) : Bool :=
  fieldName.data.length == name.data.length &&
  (fieldName.data.zip name.data).all fun p => foldsTo p.1 p.2

/-- The `fieldByName` of dynamodbattribute: the field of that exact name, or
failing that the first field whose name equals it under case folding. -/
def fieldByName (name : String) : Option Field :=
  match Field.all.find? fun f => f.Name == name with
  | some f => some f
  | none => Field.all.find? fun f => EqualFold f.Name name

/-- Decoding of one attribute value into a Go `string` field: a string or a
number sets the field, a null resets it, every other kind is a type error. -/
def decodeString : AttributeValue → Except String String
  | .S s => .ok s
  | .N n => .ok n
  | .NULL => .ok ""
  | .BOOL _ => .error "UnmarshalTypeError: cannot unmarshal bool into Go value of type string"
  | .other => .error "UnmarshalTypeError: cannot unmarshal into Go value of type string"

/-- Store a decoded value in a field of the lock. -/
def DynamoDBLock.set (lock : DynamoDBLock) : Field → String → DynamoDBLock
  | .LockID, v => { lock with LockID := v }
  | .Info, v => { lock with Info := v }
  | .Operation, v => { lock with Operation := v }

/-- Decoding of one item into a `DynamoDBLock`, attribute by attribute: an
attribute whose name resolves to a field is decoded into it, any other
attribute is skipped. -/
def decodeInto : Item → DynamoDBLock → Except String DynamoDBLock
  | [], lock => .ok lock
  | (name, av) :: rest, lock =>
    match fieldByName name with
    | none => decodeInto rest lock
    | some f =>
      match decodeString av with
      | .error e => .error e
      | .ok v => decodeInto rest (lock.set f v)

/-- Decoding of one item, starting from the zero value of the struct. -/
def decodeItem (item : Item) : Except String DynamoDBLock :=
  decodeInto item ⟨"", "", ""⟩

/-- The call `dynamodbattribute.UnmarshalListOfMaps(result.Items, &locks)`. -/
def UnmarshalListOfMaps : List Item → Except String (List DynamoDBLock)
  | [] => .ok []
  | item :: rest =>
    match decodeItem item with
    | .error e => .error e
    | .ok lock =>
      match UnmarshalListOfMaps rest with
      | .error e => .error e
      | .ok locks => .ok (lock :: locks)

/-- Text of the prompt of `promptForUnlockDynamoDB`. -/
def unlockPromptDynamoDB (lockID : String) : String :=
  "Do you want to unlock LockID " ++ lockID ++ "? (y/n): "

/-- Line printed for a lock by `handleDynamoDBLocks` (main.go, line 115). -/
def lockLine (lock : DynamoDBLock) : String :=
  "LockID: " ++ lock.LockID ++ ", Info: " ++ lock.Info ++ ", Operation: " ++
    lock.Operation ++ "\n"

/-- Whether the trimmed response is the affirmative answer (main.go, lines 127
and 192). -/
def affirmative (response : String) : Bool :=
  response == "y" || response == "Y"

/-- Go `promptForUnlockDynamoDB` (main.go, lines 121-142). -/
def promptForUnlockDynamoDB {σ : Type} (svc : AWS σ) (tableName lockID : String)
    (w : World σ) : World σ :=
  let w := w.Print (unlockPromptDynamoDB lockID)
  let (response, w) := w.ReadString
  let response := TrimSpace response
  if affirmative response then
    let w := w.emit (.deleteItem tableName lockID)
    let (err, b) := svc.DeleteItem w.backend tableName lockID
    let w := { w with backend := b }
    match err with
    | some e => w.logPrintf ("Failed to delete lock with LockID " ++ lockID ++ ": " ++ e)
    | none => w.Print ("Deleted lock with LockID " ++ lockID ++ "\n")
  else w

/-- First half of Go `handleDynamoDBLocks` (main.go, lines 87-108): session,
one `Scan` without start key, decoding.  `Except.error` is the world in which
`log.Fatalf` ends the process with status 1. -/
def scanDynamoDBLocks {σ : Type} (svc : AWS σ) (tableName : String) (w : World σ) :
    Except (World σ) (List DynamoDBLock × World σ) :=
  let region := w.Getenv "AWS_REGION"
  let w := w.emit (.newSession region)
  match svc.NewSession region with
  | some err => .error (w.logFatalf ("Failed to connect to AWS: " ++ err))
  | none =>
    let w := w.emit (.scan tableName none)
    let (result, b) := svc.Scan w.backend tableName none
    let w := { w with backend := b }
    match result with
    | .error err => .error (w.logFatalf ("Failed to scan DynamoDB table: " ++ err))
    | .ok result =>
      match UnmarshalListOfMaps result.Items with
      | .error err => .error (w.logFatalf ("Failed to unmarshal scan result: " ++ err))
      | .ok locks => .ok (locks, w)

/-- The loop `for _, lock := range locks` of `handleDynamoDBLocks` (main.go,
lines 114-117). -/
def unlockDynamoDBLocks {σ : Type} (svc : AWS σ) (tableName : String) :
    List DynamoDBLock → World σ → World σ
  | [], w => w
  | lock :: rest, w =>
    let w := w.Print (lockLine lock)
    let w := promptForUnlockDynamoDB svc tableName lock.LockID w
    unlockDynamoDBLocks svc tableName rest w

/-- Go `handleDynamoDBLocks` (main.go, lines 86-119). -/
def handleDynamoDBLocks {σ : Type} (svc : AWS σ) (tableName : String) (w : World σ) :
    Ctl × World σ :=
  match scanDynamoDBLocks svc tableName w with
  | .error w => (.exited 1, w)
  | .ok (locks, w) =>
    if locks.length = 0 then
      (.returned, w.Println "No locks found in DynamoDB table.")
    else
      let w := w.Println "Current locks in DynamoDB table:"
      (.returned, unlockDynamoDBLocks svc tableName locks w)

/-- Go `promptForAWSDetails` (main.go, lines 56-67). -/
def promptForAWSDetails {σ : Type} (svc : AWS σ) (w : World σ) : Ctl × World σ :=
  let w := w.Print "Please set AWS_REGION environment variable: "
  let (awsRegion, w) := w.ReadString
  let w := w.Setenv "AWS_REGION" (TrimSpace awsRegion)
  let w := w.Print "Enter the DynamoDB table name for locking: "
  let (tableName, w) := w.ReadString
  let tableName := TrimSpace tableName
  handleDynamoDBLocks svc tableName w

/-! ## The Azure side -/

/-- An `azblob.BlobItem`, of which the program reads the field `Name *string`;
`none` is the nil pointer. -/
structure BlobItem where
  Name : Option String
  deriving DecidableEq, Repr

/-- The flat blob pager of a container: the results of its successive
`NextPage` calls.  `More()` holds as long as a page is left, so the listing
loop runs once per element. -/
abbrev Pager := List (Except String (List BlobItem))

/-- The Azure SDK as the program uses it, over a remote state `σ`.  The two
constructors may fail (`some err`); the pager is the one the container of that
name yields in the given remote state; `Delete` may fail and may change the
remote state in any way. -/
structure Azure (σ : Type) where
  NewSharedKeyCredential : String → String → Option String
  NewServiceClientWithSharedKeyCredential : String → Option String
  NewListBlobsFlatPager : σ → String → Pager
  Delete : σ → String → String → Option String × σ

/-- Text of the prompt of `promptForUnlockAzureBlob`. -/
def unlockPromptAzureBlob (blobName : String) : String :=
  "Do you want to unlock Blob " ++ blobName ++ "? (y/n): "

/-- Line printed for a blob by `handleAzureBlobLocks` (main.go, line 180). -/
def blobLine (blobName : String) : String :=
  "BlobName: " ++ blobName ++ "\n"

/-- Go `promptForUnlockAzureBlob` (main.go, lines 186-201). -/
def promptForUnlockAzureBlob {σ : Type} (client : Azure σ) (containerName blobName : String)
    (w : World σ) : World σ :=
  let w := w.Print (unlockPromptAzureBlob blobName)
  let (response, w) := w.ReadString
  let response := TrimSpace response
  if affirmative response then
    let w := w.emit (.deleteBlob containerName blobName)
    let (err, b) := client.Delete w.backend containerName blobName
    let w := { w with backend := b }
    match err with
    | some e => w.logPrintf ("Failed to delete blob " ++ blobName ++ ": " ++ e)
    | none => w.Print ("Deleted blob " ++ blobName ++ "\n")
  else w

/-- The loop `for pager.More()` of `handleAzureBlobLocks` (main.go, lines
167-173), with the blobs collected so far.  `Except.error` is the world in
which `log.Fatalf` ends the process with status 1. -/
def collectPages {σ : Type} (containerName : String) :
    Pager → List BlobItem → World σ → Except (World σ) (List BlobItem × World σ)
  | [], locks, w => .ok (locks, w)
  | page :: pager, locks, w =>
    let w := w.emit (.nextPage containerName)
    match page with
    | .error err => .error (w.logFatalf ("Failed to list blobs: " ++ err))
    | .ok resp => collectPages containerName pager (locks ++ resp) w

/-- First half of Go `handleAzureBlobLocks` (main.go, lines 145-173):
credential, service client, pager, and the listing loop. -/
def listAzureBlobLocks {σ : Type} (client : Azure σ) (containerName : String) (w : World σ) :
    Except (World σ) (List BlobItem × World σ) :=
  let accountName := w.Getenv "AZURE_STORAGE_ACCOUNT_NAME"
  let accountKey := w.Getenv "AZURE_STORAGE_ACCOUNT_KEY"
  let w := w.emit (.newSharedKeyCredential accountName accountKey)
  match client.NewSharedKeyCredential accountName accountKey with
  | some err => .error (w.logFatalf ("Failed to create Azure credential: " ++ err))
  | none =>
    let serviceURL := "https://" ++ accountName ++ ".blob.core.windows.net"
    let w := w.emit (.newServiceClient serviceURL)
    match client.NewServiceClientWithSharedKeyCredential serviceURL with
    | some err => .error (w.logFatalf ("Failed to create Azure service client: " ++ err))
    | none =>
      let pager := client.NewListBlobsFlatPager w.backend containerName
      collectPages containerName pager [] w

/-- The loop `for _, blob := range locks` of `handleAzureBlobLocks` (main.go,
lines 179-182).  Dereferencing a nil `blob.Name` panics. -/
def unlockAzureBlobLocks {σ : Type} (client : Azure σ) (containerName : String) :
    List BlobItem → World σ → Ctl × World σ
  | [], w => (.returned, w)
  | blob :: rest, w =>
    match blob.Name with
    | none => (.panicked, w)
    | some name =>
      let w := w.Print (blobLine name)
      let w := promptForUnlockAzureBlob client containerName name w
      unlockAzureBlobLocks client containerName rest w

/-- Go `handleAzureBlobLocks` (main.go, lines 144-184). -/
def handleAzureBlobLocks {σ : Type} (client : Azure σ) (containerName : String)
    (w : World σ) : Ctl × World σ :=
  match listAzureBlobLocks client containerName w with
  | .error w => (.exited 1, w)
  | .ok (locks, w) =>
    if locks.length = 0 then
      (.returned, w.Println "No locks found in Azure Blob container.")
    else
      let w := w.Println "Current locks in Azure Blob container:"
      unlockAzureBlobLocks client containerName locks w

/-- Go `promptForAzureDetails` (main.go, lines 69-84). -/
def promptForAzureDetails {σ : Type} (client : Azure σ) (w : World σ) : Ctl × World σ :=
  let w := w.Print "Please set AZURE_STORAGE_ACCOUNT_NAME environment variable: "
  let (azureAccountName, w) := w.ReadString
  let w := w.Setenv "AZURE_STORAGE_ACCOUNT_NAME" (TrimSpace azureAccountName)
  let w := w.Print "Please set AZURE_STORAGE_ACCOUNT_KEY environment variable: "
  let (azureAccountKey, w) := w.ReadString
  let w := w.Setenv "AZURE_STORAGE_ACCOUNT_KEY" (TrimSpace azureAccountKey)
  let w := w.Print "Enter the Azure Blob container name for locking: "
  let (containerName, w) := w.ReadString
  let containerName := TrimSpace containerName
  handleAzureBlobLocks client containerName w

/-! ## Backend selection and `main` -/

/-- Go `promptForCloudProvider` (main.go, lines 40-54). -/
def promptForCloudProvider {σ : Type} (svc : AWS σ) (client : Azure σ) (w : World σ) :
    Ctl × World σ :=
  let w := w.Print "Which cloud provider are you using? (aws/azure): "
  let (cloudProvider, w) := w.ReadString
  let cloudProvider := TrimSpace cloudProvider
  if ToLower cloudProvider == "aws" then promptForAWSDetails svc w
  else if ToLower cloudProvider == "azure" then promptForAzureDetails client w
  else (.returned, w.Println "Invalid cloud provider specified.")

/-- What cobra makes of the command line in `rootCmd.Execute()`: it runs the
`Run` function of the root command and returns nil, or it prints the help text
and returns nil without running it, or it returns an error without running
it. -/
inductive Execute where
  | run
  | help (usage : String)
  | failed (err : String)
  deriving DecidableEq, Repr

/-- Exit status of the process for the way the command function ended: 0 after
a normal return, the argument of `os.Exit`, 2 after a panic. -/
def exitStatus : Ctl → Nat
  | .returned => 0
  | .exited code => code
  | .panicked => 2

/-- Go `main` (main.go, lines 25-38): the exit status and the final world. -/
def main {σ : Type} (svc : AWS σ) (client : Azure σ) (cmdline : Execute) (w : World σ) :
    Nat × World σ :=
  match cmdline with
  | .failed err => (1, w.Println err)
  | .help usage => (0, w.Print usage)
  | .run =>
    let r := promptForCloudProvider svc client w
    (exitStatus r.1, r.2)

/-! ## Observations on a trace -/

/-- The event is one of the two unlock prompts. -/
def isUnlockPrompt : Event → Bool
  | .stdout text => HasPrefix text "Do you want to unlock "
  | _ => false

/-- The event is the line describing a listed record. -/
def isRecordLine : Event → Bool
  | .stdout text => HasPrefix text "LockID: " || HasPrefix text "BlobName: "
  | _ => false

/-- The event is a delete call on a backend. -/
def isDelete : Event → Bool
  | .deleteItem _ _ => true
  | .deleteBlob _ _ => true
  | _ => false

/-- The event writes to standard output. -/
def isStdout : Event → Bool
  | .stdout _ => true
  | _ => false

/-! ## A concrete cloud, for the scenarios of the specification -/

/-- An in-memory cloud: a table served in pages by `Scan`, and a container
whose blobs the pager serves in pages.  Every call succeeds. -/
structure Cloud where
  table : List (List Item)
  blobs : List (List BlobItem)
  deriving DecidableEq, Repr

/-- `Scan` of the in-memory table: the page at the start key (the first page
without one), with the start key of the next page unless it is the last. -/
def Cloud.Scan (c : Cloud) (_tableName : String) (start : Option Nat) :
    Except String ScanOutput × Cloud :=
  let i := start.getD 0
  (.ok ⟨c.table.getD i [], if i + 1 < c.table.length then some (i + 1) else none⟩, c)

/-- `DeleteItem` of the in-memory table: the item of that `LockID` is removed. -/
def Cloud.DeleteItem (c : Cloud) (_tableName lockID : String) : Option String × Cloud :=
  (none, { c with table := c.table.map (fun page =>
    page.filter (fun item => item.lookup "LockID" != some (.S lockID))) })

/-- `Delete` of the in-memory container: the blob of that name is removed. -/
def Cloud.DeleteBlob (c : Cloud) (_containerName blobName : String) : Option String × Cloud :=
  (none, { c with blobs := c.blobs.map (fun page =>
    page.filter (fun blob => blob.Name != some blobName)) })

/-- The AWS SDK over the in-memory cloud. -/
def Cloud.aws : AWS Cloud where
  NewSession := fun _ => none
  Scan := Cloud.Scan
  DeleteItem := Cloud.DeleteItem

/-- The Azure SDK over the in-memory cloud. -/
def Cloud.azure : Azure Cloud where
  NewSharedKeyCredential := fun _ _ => none
  NewServiceClientWithSharedKeyCredential := fun _ => none
  NewListBlobsFlatPager := fun c _ => c.blobs.map Except.ok
  Delete := Cloud.DeleteBlob

/-- An AWS SDK whose every call fails with the given error. -/
def failingAWS (σ : Type) (err : String) : AWS σ where
  NewSession := fun _ => none
  Scan := fun b _ _ => (.error err, b)
  DeleteItem := fun b _ _ => (some err, b)

/-- An Azure SDK whose pager serves the given pages and then fails, and whose
deletes fail, with the given error. -/
def failingAzure (σ : Type) (pages : List (List BlobItem)) (err : String) : Azure σ where
  NewSharedKeyCredential := fun _ _ => none
  NewServiceClientWithSharedKeyCredential := fun _ => none
  NewListBlobsFlatPager := fun _ _ => pages.map Except.ok ++ [.error err]
  Delete := fun b _ _ => (some err, b)

/-- The AWS SDK over the in-memory cloud, with every `DeleteItem` failing. -/
def Cloud.awsDeleteFails (err : String) : AWS Cloud where
  NewSession := fun _ => none
  Scan := Cloud.Scan
  DeleteItem := fun c _ _ => (some err, c)

/-- The Azure SDK over the in-memory cloud, with every `Delete` failing. -/
def Cloud.azureDeleteFails (err : String) : Azure Cloud where
  NewSharedKeyCredential := fun _ _ => none
  NewServiceClientWithSharedKeyCredential := fun _ => none
  NewListBlobsFlatPager := fun c _ => c.blobs.map Except.ok
  Delete := fun c _ _ => (some err, c)

/-- A fresh run over a cloud, with the lines the operator will enter. -/
def World.start {σ : Type} (backend : σ) (stdin : List String) : World σ :=
  ⟨stdin, [], backend, []⟩

/-- The table of scenario A: locks `L1` and `L2` on a single page. -/
def scenarioA : Cloud :=
  ⟨[[[("LockID", .S "L1"), ("Info", .S "build"), ("Operation", .S "apply")],
     [("LockID", .S "L2"), ("Info", .S "plan"), ("Operation", .S "plan")]]], []⟩

/-- The report that follows a `DeleteItem` call: the logged failure, or the
confirmation on standard output. -/
def deleteItemReport (lockID : String) : Option String → Event
  | some e => .logged ("Failed to delete lock with LockID " ++ lockID ++ ": " ++ e)
  | none => .stdout ("Deleted lock with LockID " ++ lockID ++ "\n")

/-- The report that follows a blob `Delete` call. -/
def deleteBlobReport (blobName : String) : Option String → Event
  | some e => .logged ("Failed to delete blob " ++ blobName ++ ": " ++ e)
  | none => .stdout ("Deleted blob " ++ blobName ++ "\n")

/-- The words of the specification, "equals ignoring case": the two strings
agree rune by rune once ASCII upper-case letters are read as lower case. -/
def EqIgnoreCase (a b : String) : Bool :=
  a.data.map Char.toLower == b.data.map Char.toLower

/-- A blob item as the service lists it, with its name set. -/
def BlobItem.named (name : String) : BlobItem := ⟨some name⟩

/-- A rune that `toLowerRune` reaches only through the ASCII rule. -/
def plainLower (t : Char) : Prop :=
  t ≠ 'k' ∧ t ≠ 'i' ∧ t.toNat ≠ 0x212A ∧ t.toNat ≠ 0x0130

instance (t : Char) : Decidable (plainLower t) := by
  unfold plainLower; infer_instance

/-- The events a prompt adds to the trace for the given trimmed response: the
prompt, and after an affirmative response the delete call and its report. -/
def promptEvents (response : String) (prompt call report : Event) : List Event :=
  if affirmative response then [prompt, call, report] else [prompt]

/-- The event is a record line or an unlock prompt. -/
def isLineOrPrompt (e : Event) : Bool :=
  isRecordLine e || isUnlockPrompt e

/-- The listed records paired with the responses read for them, restricted to
the affirmative responses. -/
def confirmed {α : Type} (records : List α) (stdin : List String) : List α :=
  ((records.zip stdin).filter fun p => affirmative (TrimSpace p.2)).map Prod.fst

/-- The words of the specification, "every record line precedes every unlock
prompt": in the trace no unlock prompt comes before a record line. -/
def LinesBeforePrompts (trace : List Event) : Prop :=
  ∀ i j : Fin trace.length,
    isRecordLine (trace.get i) = true → isUnlockPrompt (trace.get j) = true → i < j

instance (trace : List Event) : Decidable (LinesBeforePrompts trace) := by
  unfold LinesBeforePrompts; infer_instance

/-- A container whose two lock blobs the pager serves one per page. -/
def twoBlobPages : Cloud :=
  ⟨[], [[BlobItem.named "env/dev.tflock"], [BlobItem.named "env/prod.tflock"]]⟩

/-- A cloud with an empty table and an empty container, each served as one
page without entries. -/
def emptyCloud : Cloud :=
  ⟨[[]], [[]]⟩

/-- A table of two locks that `Scan` serves in two pages of one item each. -/
def twoScanPages : Cloud :=
  ⟨[[[("LockID", .S "L1"), ("Info", .S "build"), ("Operation", .S "apply")]],
    [[("LockID", .S "L2"), ("Info", .S "plan"), ("Operation", .S "plan")]]], []⟩

/-- Read a field of the lock. -/
def DynamoDBLock.get (lock : DynamoDBLock) : Field → String
  | .LockID => lock.LockID
  | .Info => lock.Info
  | .Operation => lock.Operation

/-- The text a string field takes from an attribute: the string or the number,
and the empty string, the zero value, for a null or an absent attribute. -/
def attrText : Option AttributeValue → String
  | some (.S s) => s
  | some (.N n) => n
  | _ => ""

/-- The event writes a text containing `s` to standard output. -/
def shows (e : Event) (s : String) : Bool :=
  match e with
  | .stdout text => decide (Contains text s)
  | _ => false

/-- A table with one lock item that carries, besides `LockID`, `Info` and
`Operation`, the attributes `Who` and `Created`. -/
def tableWithExtras : Cloud :=
  ⟨[[[("LockID", .S "L1"), ("Info", .S "build"), ("Operation", .S "apply"),
      ("Who", .S "alice"), ("Created", .N "1700000000")]]], []⟩

/-- What the operator types at a prompt: the text of the response, the white
space typed before it, and the white space after it, which holds the line
end. -/
structure Typed where
  lead : String
  text : String
  trail : String
  deriving DecidableEq, Repr

/-- The line that standard input delivers for what was typed. -/
def Typed.line (t : Typed) : String :=
  t.lead ++ t.text ++ t.trail

/-- Every rune of the string is white space. -/
def Blank (s : String) : Bool :=
  s.data.all IsSpace

/-- The string neither begins nor ends with white space. -/
def Trimmed (s : String) : Bool :=
  (s.data.head?.all fun c => !IsSpace c) && (s.data.getLast?.all fun c => !IsSpace c)

/-- The three parts are what they are called: white space, a text without
white space at either end, white space. -/
def Typed.wellFormed (t : Typed) : Bool :=
  Blank t.lead && Trimmed t.text && Blank t.trail

/-- The words of the specification, "the literal responses `y`/`Y`": the text
of the response is one of the two letters. -/
def saidYes (t : Typed) : Bool :=
  t.text == "y" || t.text == "Y"

/-- The listed records paired with what was typed for them, restricted to the
records for which `y` or `Y` was typed. -/
def confirmedBy {α : Type} (records : List α) (answers : List Typed) : List α :=
  ((records.zip answers).filter fun p => saidYes p.2).map Prod.fst

/-- The trace of `w'` continues the trace of `w`. -/
def Extends {σ : Type} (w w' : World σ) : Prop :=
  ∃ evs, w'.trace = w.trace ++ evs

/-- The event is visible to the operator or touches the stored locks: a write
to standard output or a delete call. -/
def isOutputOrDelete (e : Event) : Bool :=
  isStdout e || isDelete e

/-! ## Lemmas on the world -/

section WorldLemmas

variable {σ : Type}

theorem readString_fst (w : World σ) : w.ReadString.1 = w.stdin.headD "" := by
  rcases w with ⟨si, env, b, tr⟩
  cases si <;> rfl

theorem readString_snd (w : World σ) :
    w.ReadString.2 = ⟨w.stdin.tail, w.env, w.backend, w.trace⟩ := by
  rcases w with ⟨si, env, b, tr⟩
  cases si <;> rfl

theorem newEvents_append (w w' : World σ) (evs : List Event)
    (h : w'.trace = w.trace ++ evs) : newEvents w w' = evs := by
  simp [newEvents, h]

theorem promptForUnlockDynamoDB_eq (svc : AWS σ) (tableName lockID : String) (w : World σ) :
    promptForUnlockDynamoDB svc tableName lockID w =
      if affirmative (TrimSpace w.ReadString.1) then
        ⟨w.stdin.tail, w.env, (svc.DeleteItem w.backend tableName lockID).2,
          w.trace ++ [.stdout (unlockPromptDynamoDB lockID), .deleteItem tableName lockID,
            deleteItemReport lockID (svc.DeleteItem w.backend tableName lockID).1]⟩
      else ⟨w.stdin.tail, w.env, w.backend, w.trace ++ [.stdout (unlockPromptDynamoDB lockID)]⟩ := by
  rcases w with ⟨si, env, b, tr⟩
  rcases svc with ⟨ns, sc, del⟩
  cases si with
  | nil =>
    simp only [promptForUnlockDynamoDB, World.Print, World.emit, World.ReadString]
    split
    · generalize del b tableName lockID = r
      rcases r with ⟨err, b2⟩
      cases err <;> simp [World.logPrintf, World.Print, World.emit, deleteItemReport]
    · rfl
  | cons l rest =>
    simp only [promptForUnlockDynamoDB, World.Print, World.emit, World.ReadString]
    split
    · generalize del b tableName lockID = r
      rcases r with ⟨err, b2⟩
      cases err <;> simp [World.logPrintf, World.Print, World.emit, deleteItemReport]
    · rfl

theorem promptForUnlockAzureBlob_eq (client : Azure σ) (containerName blobName : String)
    (w : World σ) :
    promptForUnlockAzureBlob client containerName blobName w =
      if affirmative (TrimSpace w.ReadString.1) then
        ⟨w.stdin.tail, w.env, (client.Delete w.backend containerName blobName).2,
          w.trace ++ [.stdout (unlockPromptAzureBlob blobName), .deleteBlob containerName blobName,
            deleteBlobReport blobName (client.Delete w.backend containerName blobName).1]⟩
      else ⟨w.stdin.tail, w.env, w.backend, w.trace ++ [.stdout (unlockPromptAzureBlob blobName)]⟩ := by
  rcases w with ⟨si, env, b, tr⟩
  rcases client with ⟨nc, nsc, pg, del⟩
  cases si with
  | nil =>
    simp only [promptForUnlockAzureBlob, World.Print, World.emit, World.ReadString]
    split
    · generalize del b containerName blobName = r
      rcases r with ⟨err, b2⟩
      cases err <;> simp [World.logPrintf, World.Print, World.emit, deleteBlobReport]
    · rfl
  | cons l rest =>
    simp only [promptForUnlockAzureBlob, World.Print, World.emit, World.ReadString]
    split
    · generalize del b containerName blobName = r
      rcases r with ⟨err, b2⟩
      cases err <;> simp [World.logPrintf, World.Print, World.emit, deleteBlobReport]
    · rfl

theorem affirmative_iff (r : String) : affirmative r = true ↔ (r = "y" ∨ r = "Y") := by
  simp [affirmative]

end WorldLemmas

/-! ## Case folding in the backend selection -/

theorem toLowerRune_eq_iff (r t : Char) (ht : plainLower t) :
    toLowerRune r = t ↔ r.toLower = t := by
  obtain ⟨hk, hi, h1, h2⟩ := ht
  unfold toLowerRune Char.toLower
  by_cases hA : 65 ≤ r.toNat ∧ r.toNat ≤ 90
  · have hA' : r.toNat ≥ 65 ∧ r.toNat ≤ 90 := hA
    simp only [hA, hA', and_self, if_true]
  · have hA' : ¬ (r.toNat ≥ 65 ∧ r.toNat ≤ 90) := hA
    simp only [hA, hA', if_false]
    by_cases hK : r.toNat = 0x212A
    · simp only [hK, if_true]
      constructor
      · intro h; exact absurd h.symm hk
      · intro h; subst h; exact absurd hK h1
    · simp only [hK, if_false]
      by_cases hI : r.toNat = 0x0130
      · simp only [hI, if_true]
        constructor
        · intro h; exact absurd h.symm hi
        · intro h; subst h; exact absurd hI h2
      · simp only [hI, if_false]

theorem map_toLowerRune_eq_iff (l ts : List Char) (hts : ∀ t ∈ ts, plainLower t) :
    l.map toLowerRune = ts ↔ l.map Char.toLower = ts := by
  induction l generalizing ts with
  | nil => simp
  | cons r l ih =>
    cases ts with
    | nil => simp
    | cons t ts =>
      have h1 := toLowerRune_eq_iff r t (hts t (List.mem_cons_self _ _))
      have h2 := ih ts (fun x hx => hts x (List.mem_cons_of_mem _ hx))
      simp only [List.map_cons, List.cons.injEq, h1, h2]

theorem toLower_eq_iff (s lit : String) (hlit : ∀ t ∈ lit.data, plainLower t)
    (hlow : lit.data.map Char.toLower = lit.data) :
    (ToLower s == lit) = EqIgnoreCase s lit := by
  have h := map_toLowerRune_eq_iff s.data lit.data hlit
  unfold EqIgnoreCase ToLower
  rw [hlow]
  rw [Bool.beq_eq_decide_eq, Bool.beq_eq_decide_eq, decide_eq_decide, String.ext_iff]
  exact h

theorem toLower_aws (s : String) : (ToLower s == "aws") = EqIgnoreCase s "aws" :=
  toLower_eq_iff s "aws" (by decide) (by decide)

theorem toLower_azure (s : String) : (ToLower s == "azure") = EqIgnoreCase s "azure" :=
  toLower_eq_iff s "azure" (by decide) (by decide)

/-- The three ways of `promptForCloudProvider`, by the trimmed input. -/
theorem promptForCloudProvider_eq {σ : Type} (svc : AWS σ) (client : Azure σ) (w : World σ) :
    promptForCloudProvider svc client w =
      if EqIgnoreCase (TrimSpace w.ReadString.1) "aws" then
        promptForAWSDetails svc ⟨w.stdin.tail, w.env, w.backend,
          w.trace ++ [.stdout "Which cloud provider are you using? (aws/azure): "]⟩
      else if EqIgnoreCase (TrimSpace w.ReadString.1) "azure" then
        promptForAzureDetails client ⟨w.stdin.tail, w.env, w.backend,
          w.trace ++ [.stdout "Which cloud provider are you using? (aws/azure): "]⟩
      else
        (.returned, ⟨w.stdin.tail, w.env, w.backend,
          w.trace ++ [.stdout "Which cloud provider are you using? (aws/azure): ",
            .stdout "Invalid cloud provider specified.\n"]⟩) := by
  rcases w with ⟨si, env, b, tr⟩
  cases si with
  | nil =>
    simp only [promptForCloudProvider, World.Print, World.emit, World.ReadString,
      toLower_aws, toLower_azure, World.Println]
    split
    · rfl
    · split
      · rfl
      · simp
  | cons l rest =>
    simp only [promptForCloudProvider, World.Print, World.emit, World.ReadString,
      toLower_aws, toLower_azure, World.Println]
    split
    · rfl
    · split
      · rfl
      · simp

section Loop
variable {σ : Type}

@[simp] theorem isUnlockPrompt_promptD (id : String) :
    isUnlockPrompt (.stdout (unlockPromptDynamoDB id)) = true := by
  simp [isUnlockPrompt, HasPrefix, unlockPromptDynamoDB, String.data_append, List.isPrefixOf]

@[simp] theorem isUnlockPrompt_promptA (id : String) :
    isUnlockPrompt (.stdout (unlockPromptAzureBlob id)) = true := by
  simp [isUnlockPrompt, HasPrefix, unlockPromptAzureBlob, String.data_append, List.isPrefixOf]

@[simp] theorem isRecordLine_promptD (id : String) :
    isRecordLine (.stdout (unlockPromptDynamoDB id)) = false := by
  simp [isRecordLine, HasPrefix, unlockPromptDynamoDB, String.data_append, List.isPrefixOf]

@[simp] theorem isRecordLine_promptA (id : String) :
    isRecordLine (.stdout (unlockPromptAzureBlob id)) = false := by
  simp [isRecordLine, HasPrefix, unlockPromptAzureBlob, String.data_append, List.isPrefixOf]

@[simp] theorem isUnlockPrompt_lockLine (l : DynamoDBLock) :
    isUnlockPrompt (.stdout (lockLine l)) = false := by
  simp [isUnlockPrompt, HasPrefix, lockLine, String.data_append, List.isPrefixOf]

@[simp] theorem isUnlockPrompt_blobLine (n : String) :
    isUnlockPrompt (.stdout (blobLine n)) = false := by
  simp [isUnlockPrompt, HasPrefix, blobLine, String.data_append, List.isPrefixOf]

@[simp] theorem isRecordLine_lockLine (l : DynamoDBLock) :
    isRecordLine (.stdout (lockLine l)) = true := by
  simp [isRecordLine, HasPrefix, lockLine, String.data_append, List.isPrefixOf]

@[simp] theorem isRecordLine_blobLine (n : String) :
    isRecordLine (.stdout (blobLine n)) = true := by
  simp [isRecordLine, HasPrefix, blobLine, String.data_append, List.isPrefixOf]

@[simp] theorem isUnlockPrompt_reportD (id : String) (e : Option String) :
    isUnlockPrompt (deleteItemReport id e) = false := by
  cases e <;>
    simp [deleteItemReport, isUnlockPrompt, HasPrefix, String.data_append, List.isPrefixOf]

@[simp] theorem isUnlockPrompt_reportA (id : String) (e : Option String) :
    isUnlockPrompt (deleteBlobReport id e) = false := by
  cases e <;>
    simp [deleteBlobReport, isUnlockPrompt, HasPrefix, String.data_append, List.isPrefixOf]

@[simp] theorem isRecordLine_reportD (id : String) (e : Option String) :
    isRecordLine (deleteItemReport id e) = false := by
  cases e <;>
    simp [deleteItemReport, isRecordLine, HasPrefix, String.data_append, List.isPrefixOf]

@[simp] theorem isRecordLine_reportA (id : String) (e : Option String) :
    isRecordLine (deleteBlobReport id e) = false := by
  cases e <;>
    simp [deleteBlobReport, isRecordLine, HasPrefix, String.data_append, List.isPrefixOf]

@[simp] theorem isUnlockPrompt_deleteItem (a b : String) :
    isUnlockPrompt (.deleteItem a b) = false := rfl

@[simp] theorem isUnlockPrompt_deleteBlob (a b : String) :
    isUnlockPrompt (.deleteBlob a b) = false := rfl

@[simp] theorem isRecordLine_deleteItem (a b : String) :
    isRecordLine (.deleteItem a b) = false := rfl

@[simp] theorem isRecordLine_deleteBlob (a b : String) :
    isRecordLine (.deleteBlob a b) = false := rfl

@[simp] theorem isDelete_stdout (t : String) : isDelete (.stdout t) = false := rfl

@[simp] theorem isDelete_deleteItem (a b : String) : isDelete (.deleteItem a b) = true := rfl

@[simp] theorem isDelete_deleteBlob (a b : String) : isDelete (.deleteBlob a b) = true := rfl

@[simp] theorem isDelete_reportD (id : String) (e : Option String) :
    isDelete (deleteItemReport id e) = false := by
  cases e <;> rfl

@[simp] theorem isDelete_reportA (id : String) (e : Option String) :
    isDelete (deleteBlobReport id e) = false := by
  cases e <;> rfl

theorem promptForUnlockDynamoDB_trace (svc : AWS σ) (tableName lockID : String) (w : World σ) :
    (promptForUnlockDynamoDB svc tableName lockID w).trace =
      w.trace ++ promptEvents (TrimSpace (w.stdin.headD ""))
        (.stdout (unlockPromptDynamoDB lockID)) (.deleteItem tableName lockID)
        (deleteItemReport lockID (svc.DeleteItem w.backend tableName lockID).1) := by
  rw [promptForUnlockDynamoDB_eq, readString_fst]
  unfold promptEvents
  split <;> rfl

theorem promptForUnlockDynamoDB_stdin (svc : AWS σ) (tableName lockID : String) (w : World σ) :
    (promptForUnlockDynamoDB svc tableName lockID w).stdin = w.stdin.tail := by
  rw [promptForUnlockDynamoDB_eq]
  split <;> rfl

theorem promptForUnlockAzureBlob_trace (client : Azure σ) (containerName blobName : String)
    (w : World σ) :
    (promptForUnlockAzureBlob client containerName blobName w).trace =
      w.trace ++ promptEvents (TrimSpace (w.stdin.headD ""))
        (.stdout (unlockPromptAzureBlob blobName)) (.deleteBlob containerName blobName)
        (deleteBlobReport blobName (client.Delete w.backend containerName blobName).1) := by
  rw [promptForUnlockAzureBlob_eq, readString_fst]
  unfold promptEvents
  split <;> rfl

theorem promptForUnlockAzureBlob_stdin (client : Azure σ) (containerName blobName : String)
    (w : World σ) :
    (promptForUnlockAzureBlob client containerName blobName w).stdin = w.stdin.tail := by
  rw [promptForUnlockAzureBlob_eq]
  split <;> rfl

theorem confirmed_nil_stdin {α : Type} (records : List α) : confirmed records [] = [] := by
  simp [confirmed]

theorem confirmed_cons {α : Type} (x : α) (records : List α) (r : String) (rs : List String) :
    confirmed (x :: records) (r :: rs) =
      (if affirmative (TrimSpace r) then [x] else []) ++ confirmed records rs := by
  unfold confirmed
  by_cases h : affirmative (TrimSpace r) = true <;> simp [List.filter_cons, h]

theorem trimSpace_empty : affirmative (TrimSpace "") = false := by decide

/-- Prompts of the DynamoDB pass: one per lock, in order. -/
theorem unlockDynamoDBLocks_prompts (svc : AWS σ) (tableName : String)
    (locks : List DynamoDBLock) (w : World σ) :
    (unlockDynamoDBLocks svc tableName locks w).trace.filter isUnlockPrompt =
      w.trace.filter isUnlockPrompt ++
        locks.map fun l => .stdout (unlockPromptDynamoDB l.LockID) := by
  induction locks generalizing w with
  | nil => simp [unlockDynamoDBLocks]
  | cons l rest ih =>
    rw [unlockDynamoDBLocks, ih, promptForUnlockDynamoDB_trace]
    unfold promptEvents
    split <;> simp [World.Print, World.emit, List.filter_append, List.filter_cons]

/-- Record lines and prompts of the DynamoDB pass: line then prompt, lock by lock. -/
theorem unlockDynamoDBLocks_lines (svc : AWS σ) (tableName : String)
    (locks : List DynamoDBLock) (w : World σ) :
    (unlockDynamoDBLocks svc tableName locks w).trace.filter isLineOrPrompt =
      w.trace.filter isLineOrPrompt ++
        locks.flatMap fun l =>
          [.stdout (lockLine l), .stdout (unlockPromptDynamoDB l.LockID)] := by
  induction locks generalizing w with
  | nil => simp [unlockDynamoDBLocks]
  | cons l rest ih =>
    rw [unlockDynamoDBLocks, ih, promptForUnlockDynamoDB_trace]
    unfold promptEvents
    split <;> simp [World.Print, World.emit, List.filter_append, List.filter_cons,
      isLineOrPrompt]

/-- Delete calls of the DynamoDB pass: the confirmed locks, in order. -/
theorem unlockDynamoDBLocks_deletes (svc : AWS σ) (tableName : String)
    (locks : List DynamoDBLock) (w : World σ) :
    (unlockDynamoDBLocks svc tableName locks w).trace.filter isDelete =
      w.trace.filter isDelete ++
        (confirmed locks w.stdin).map fun l => .deleteItem tableName l.LockID := by
  induction locks generalizing w with
  | nil => simp [unlockDynamoDBLocks, confirmed]
  | cons l rest ih =>
    rw [unlockDynamoDBLocks, ih, promptForUnlockDynamoDB_trace, promptForUnlockDynamoDB_stdin]
    rcases w with ⟨si, env, b, tr⟩
    cases si with
    | nil =>
      simp [World.Print, World.emit, promptEvents, trimSpace_empty, confirmed_nil_stdin,
        List.filter_append, List.filter_cons]
    | cons r rs =>
      rw [confirmed_cons]
      by_cases h : affirmative (TrimSpace r) = true <;>
        simp [World.Print, World.emit, promptEvents, h, List.filter_append, List.filter_cons]

end Loop

section AzureLoop
variable {σ : Type}

/-- The Azure pass over named blobs returns normally. -/
theorem unlockAzureBlobLocks_returned (client : Azure σ) (containerName : String)
    (names : List String) (w : World σ) :
    (unlockAzureBlobLocks client containerName (names.map BlobItem.named) w).1 = .returned := by
  induction names generalizing w with
  | nil => rfl
  | cons n rest ih =>
    simp only [List.map_cons, unlockAzureBlobLocks, BlobItem.named]
    exact ih _

/-- Prompts of the Azure pass: one per blob, in order. -/
theorem unlockAzureBlobLocks_prompts (client : Azure σ) (containerName : String)
    (names : List String) (w : World σ) :
    (unlockAzureBlobLocks client containerName (names.map BlobItem.named) w).2.trace.filter
        isUnlockPrompt =
      w.trace.filter isUnlockPrompt ++ names.map fun n => .stdout (unlockPromptAzureBlob n) := by
  induction names generalizing w with
  | nil => simp [unlockAzureBlobLocks]
  | cons n rest ih =>
    simp only [List.map_cons, unlockAzureBlobLocks, BlobItem.named]
    have ih' := ih (promptForUnlockAzureBlob client containerName n (w.Print (blobLine n)))
    simp only [BlobItem.named] at ih'
    rw [ih', promptForUnlockAzureBlob_trace]
    unfold promptEvents
    split <;> simp [World.Print, World.emit, List.filter_append, List.filter_cons]

/-- Record lines and prompts of the Azure pass: line then prompt, blob by blob. -/
theorem unlockAzureBlobLocks_lines (client : Azure σ) (containerName : String)
    (names : List String) (w : World σ) :
    (unlockAzureBlobLocks client containerName (names.map BlobItem.named) w).2.trace.filter
        isLineOrPrompt =
      w.trace.filter isLineOrPrompt ++
        names.flatMap fun n => [.stdout (blobLine n), .stdout (unlockPromptAzureBlob n)] := by
  induction names generalizing w with
  | nil => simp [unlockAzureBlobLocks]
  | cons n rest ih =>
    simp only [List.map_cons, unlockAzureBlobLocks, BlobItem.named]
    have ih' := ih (promptForUnlockAzureBlob client containerName n (w.Print (blobLine n)))
    simp only [BlobItem.named] at ih'
    rw [ih', promptForUnlockAzureBlob_trace]
    unfold promptEvents
    split <;> simp [World.Print, World.emit, List.filter_append, List.filter_cons,
      isLineOrPrompt]

/-- Delete calls of the Azure pass: the confirmed blobs, in order. -/
theorem unlockAzureBlobLocks_deletes (client : Azure σ) (containerName : String)
    (names : List String) (w : World σ) :
    (unlockAzureBlobLocks client containerName (names.map BlobItem.named) w).2.trace.filter
        isDelete =
      w.trace.filter isDelete ++
        (confirmed names w.stdin).map fun n => .deleteBlob containerName n := by
  induction names generalizing w with
  | nil => simp [unlockAzureBlobLocks, confirmed]
  | cons n rest ih =>
    simp only [List.map_cons, unlockAzureBlobLocks, BlobItem.named]
    have ih' := ih (promptForUnlockAzureBlob client containerName n (w.Print (blobLine n)))
    simp only [BlobItem.named] at ih'
    rw [ih', promptForUnlockAzureBlob_trace, promptForUnlockAzureBlob_stdin]
    rcases w with ⟨si, env, b, tr⟩
    cases si with
    | nil =>
      simp [World.Print, World.emit, promptEvents, trimSpace_empty, confirmed_nil_stdin,
        List.filter_append, List.filter_cons]
    | cons r rs =>
      rw [confirmed_cons]
      by_cases h : affirmative (TrimSpace r) = true <;>
        simp [World.Print, World.emit, promptEvents, h, List.filter_append, List.filter_cons]

end AzureLoop

section Listing
variable {σ : Type}

theorem scanDynamoDBLocks_ok (svc : AWS σ) (tableName : String) (w : World σ)
    (out : ScanOutput) (b : σ) (locks : List DynamoDBLock)
    (hs : svc.NewSession (w.Getenv "AWS_REGION") = none)
    (hscan : svc.Scan w.backend tableName none = (.ok out, b))
    (hdec : UnmarshalListOfMaps out.Items = .ok locks) :
    scanDynamoDBLocks svc tableName w = .ok (locks, ⟨w.stdin, w.env, b,
      w.trace ++ [.newSession (w.Getenv "AWS_REGION"), .scan tableName none]⟩) := by
  simp [scanDynamoDBLocks, World.emit, World.Getenv] at *
  simp [hs, hscan, hdec]

theorem scanDynamoDBLocks_error (svc : AWS σ) (tableName : String) (w : World σ)
    (err : String) (b : σ)
    (hs : svc.NewSession (w.Getenv "AWS_REGION") = none)
    (hscan : svc.Scan w.backend tableName none = (.error err, b)) :
    scanDynamoDBLocks svc tableName w = .error ⟨w.stdin, w.env, b,
      w.trace ++ [.newSession (w.Getenv "AWS_REGION"), .scan tableName none,
        .logged ("Failed to scan DynamoDB table: " ++ err)]⟩ := by
  simp [scanDynamoDBLocks, World.emit, World.Getenv, World.logFatalf] at *
  simp [hs, hscan]

theorem collectPages_ok (containerName : String) (pages : List (List BlobItem))
    (acc : List BlobItem) (w : World σ) :
    collectPages containerName (pages.map Except.ok) acc w =
      .ok (acc ++ pages.flatten, ⟨w.stdin, w.env, w.backend,
        w.trace ++ List.replicate pages.length (.nextPage containerName)⟩) := by
  induction pages generalizing acc w with
  | nil => simp [collectPages]
  | cons page rest ih =>
    simp only [List.map_cons, collectPages, ih, World.emit]
    simp [List.replicate_succ]

theorem collectPages_error (containerName : String) (pages : List (List BlobItem))
    (err : String) (rest : Pager) (acc : List BlobItem) (w : World σ) :
    collectPages containerName (pages.map Except.ok ++ .error err :: rest) acc w =
      .error ⟨w.stdin, w.env, w.backend,
        w.trace ++ List.replicate (pages.length + 1) (.nextPage containerName) ++
          [.logged ("Failed to list blobs: " ++ err)]⟩ := by
  induction pages generalizing acc w with
  | nil => simp [collectPages, World.emit, World.logFatalf]
  | cons page more ih =>
    simp only [List.map_cons, List.cons_append, collectPages, World.emit, List.append_eq]
    rw [ih]
    simp [List.replicate_succ]

end Listing

section Handle
variable {σ : Type}

theorem Extends.refl (w : World σ) : Extends w w := ⟨[], by simp⟩

theorem Extends.trans {w1 w2 w3 : World σ} (h12 : Extends w1 w2) (h23 : Extends w2 w3) :
    Extends w1 w3 := by
  obtain ⟨a, ha⟩ := h12
  obtain ⟨b, hb⟩ := h23
  exact ⟨a ++ b, by rw [hb, ha, List.append_assoc]⟩

theorem filter_newEvents (p : Event → Bool) (w w' : World σ) (evs : List Event)
    (hext : Extends w w') (hf : w'.trace.filter p = w.trace.filter p ++ evs) :
    (newEvents w w').filter p = evs := by
  obtain ⟨new, hnew⟩ := hext
  rw [newEvents_append w w' new hnew]
  rw [hnew, List.filter_append] at hf
  exact List.append_cancel_left hf

theorem unlockDynamoDBLocks_extends (svc : AWS σ) (tableName : String)
    (locks : List DynamoDBLock) (w : World σ) :
    Extends w (unlockDynamoDBLocks svc tableName locks w) := by
  induction locks generalizing w with
  | nil => exact Extends.refl w
  | cons l rest ih =>
    rw [unlockDynamoDBLocks]
    refine Extends.trans ?_ (ih _)
    rw [Extends, promptForUnlockDynamoDB_trace]
    exact ⟨_, by simp only [World.Print, World.emit, List.append_assoc]; rfl⟩

theorem unlockAzureBlobLocks_extends (client : Azure σ) (containerName : String)
    (blobs : List BlobItem) (w : World σ) :
    Extends w (unlockAzureBlobLocks client containerName blobs w).2 := by
  induction blobs generalizing w with
  | nil => exact Extends.refl w
  | cons blob rest ih =>
    rcases blob with ⟨_ | n⟩
    · exact Extends.refl w
    · simp only [unlockAzureBlobLocks]
      refine Extends.trans ?_ (ih _)
      rw [Extends, promptForUnlockAzureBlob_trace]
      exact ⟨_, by simp only [World.Print, World.emit, List.append_assoc]; rfl⟩

theorem handleDynamoDBLocks_ok (svc : AWS σ) (tableName : String) (w : World σ)
    (out : ScanOutput) (b : σ) (locks : List DynamoDBLock)
    (hs : svc.NewSession (w.Getenv "AWS_REGION") = none)
    (hscan : svc.Scan w.backend tableName none = (.ok out, b))
    (hdec : UnmarshalListOfMaps out.Items = .ok locks) :
    handleDynamoDBLocks svc tableName w =
      if locks.length = 0 then
        (.returned, ⟨w.stdin, w.env, b,
          w.trace ++ [.newSession (w.Getenv "AWS_REGION"), .scan tableName none,
            .stdout "No locks found in DynamoDB table.\n"]⟩)
      else
        (.returned, unlockDynamoDBLocks svc tableName locks ⟨w.stdin, w.env, b,
          w.trace ++ [.newSession (w.Getenv "AWS_REGION"), .scan tableName none,
            .stdout "Current locks in DynamoDB table:\n"]⟩) := by
  rw [handleDynamoDBLocks, scanDynamoDBLocks_ok svc tableName w out b locks hs hscan hdec]
  simp only [World.Println, World.emit]
  split <;> simp

theorem listAzureBlobLocks_ok (client : Azure σ) (containerName : String) (w : World σ)
    (pages : List (List BlobItem))
    (hcred : client.NewSharedKeyCredential (w.Getenv "AZURE_STORAGE_ACCOUNT_NAME")
      (w.Getenv "AZURE_STORAGE_ACCOUNT_KEY") = none)
    (hclient : client.NewServiceClientWithSharedKeyCredential
      ("https://" ++ w.Getenv "AZURE_STORAGE_ACCOUNT_NAME" ++ ".blob.core.windows.net") = none)
    (hpager : client.NewListBlobsFlatPager w.backend containerName = pages.map Except.ok) :
    listAzureBlobLocks client containerName w =
      .ok (pages.flatten, ⟨w.stdin, w.env, w.backend,
        w.trace ++ [.newSharedKeyCredential (w.Getenv "AZURE_STORAGE_ACCOUNT_NAME")
            (w.Getenv "AZURE_STORAGE_ACCOUNT_KEY"),
          .newServiceClient ("https://" ++ w.Getenv "AZURE_STORAGE_ACCOUNT_NAME" ++
            ".blob.core.windows.net")] ++
          List.replicate pages.length (.nextPage containerName)⟩) := by
  simp only [listAzureBlobLocks, World.emit, World.Getenv] at *
  simp only [hcred, hclient, hpager, collectPages_ok]
  simp

theorem listAzureBlobLocks_error (client : Azure σ) (containerName : String) (w : World σ)
    (pages : List (List BlobItem)) (err : String) (rest : Pager)
    (hcred : client.NewSharedKeyCredential (w.Getenv "AZURE_STORAGE_ACCOUNT_NAME")
      (w.Getenv "AZURE_STORAGE_ACCOUNT_KEY") = none)
    (hclient : client.NewServiceClientWithSharedKeyCredential
      ("https://" ++ w.Getenv "AZURE_STORAGE_ACCOUNT_NAME" ++ ".blob.core.windows.net") = none)
    (hpager : client.NewListBlobsFlatPager w.backend containerName =
      pages.map Except.ok ++ .error err :: rest) :
    listAzureBlobLocks client containerName w =
      .error ⟨w.stdin, w.env, w.backend,
        w.trace ++ [.newSharedKeyCredential (w.Getenv "AZURE_STORAGE_ACCOUNT_NAME")
            (w.Getenv "AZURE_STORAGE_ACCOUNT_KEY"),
          .newServiceClient ("https://" ++ w.Getenv "AZURE_STORAGE_ACCOUNT_NAME" ++
            ".blob.core.windows.net")] ++
          List.replicate (pages.length + 1) (.nextPage containerName) ++
          [.logged ("Failed to list blobs: " ++ err)]⟩ := by
  simp only [listAzureBlobLocks, World.emit, World.Getenv] at *
  simp only [hcred, hclient, hpager, collectPages_error]
  simp

end Handle

/-- What the DynamoDB handler does once session, scan and decoding have
succeeded: it returns, and its prompts, record lines and delete calls are those
of the listed locks. -/
theorem handleDynamoDBLocks_pass {σ : Type} (svc : AWS σ) (tableName : String) (w : World σ)
    (out : ScanOutput) (b : σ) (locks : List DynamoDBLock)
    (hs : svc.NewSession (w.Getenv "AWS_REGION") = none)
    (hscan : svc.Scan w.backend tableName none = (.ok out, b))
    (hdec : UnmarshalListOfMaps out.Items = .ok locks) :
    (handleDynamoDBLocks svc tableName w).1 = .returned ∧
    (newEvents w (handleDynamoDBLocks svc tableName w).2).filter isUnlockPrompt =
      locks.map (fun l => .stdout (unlockPromptDynamoDB l.LockID)) ∧
    (newEvents w (handleDynamoDBLocks svc tableName w).2).filter isLineOrPrompt =
      locks.flatMap (fun l => [.stdout (lockLine l), .stdout (unlockPromptDynamoDB l.LockID)]) ∧
    (newEvents w (handleDynamoDBLocks svc tableName w).2).filter isDelete =
      (confirmed locks w.stdin).map (fun l => .deleteItem tableName l.LockID) := by
  rw [handleDynamoDBLocks_ok svc tableName w out b locks hs hscan hdec]
  split
  · rename_i h0
    have hl : locks = [] := List.length_eq_zero.mp h0
    subst hl
    refine ⟨rfl, ?_, ?_, ?_⟩ <;> rw [newEvents_append _ _ _ rfl] <;>
      simp [isUnlockPrompt, isLineOrPrompt, isRecordLine, isDelete, HasPrefix,
        List.isPrefixOf, confirmed]
  · have hext := Extends.trans (show Extends w _ from ⟨_, rfl⟩)
      (unlockDynamoDBLocks_extends svc tableName locks ⟨w.stdin, w.env, b,
          w.trace ++ [.newSession (w.Getenv "AWS_REGION"), .scan tableName none,
            .stdout "Current locks in DynamoDB table:\n"]⟩)
    refine ⟨rfl, ?_, ?_, ?_⟩
    · refine filter_newEvents _ _ _ _ hext ?_
      rw [unlockDynamoDBLocks_prompts]
      simp [List.filter_append, isUnlockPrompt, HasPrefix, List.isPrefixOf]
    · refine filter_newEvents _ _ _ _ hext ?_
      rw [unlockDynamoDBLocks_lines]
      simp [List.filter_append, isLineOrPrompt, isRecordLine, isUnlockPrompt, HasPrefix,
        List.isPrefixOf]
    · refine filter_newEvents _ _ _ _ hext ?_
      rw [unlockDynamoDBLocks_deletes]
      simp [List.filter_append, isDelete]

/-- What the Azure handler does once credential, client and every page of the
pager have succeeded with named blobs: it returns, and its prompts, record
lines and delete calls are those of the listed blobs. -/
theorem handleAzureBlobLocks_pass {σ : Type} (client : Azure σ) (containerName : String)
    (w : World σ) (pages : List (List String))
    (hcred : client.NewSharedKeyCredential (w.Getenv "AZURE_STORAGE_ACCOUNT_NAME")
      (w.Getenv "AZURE_STORAGE_ACCOUNT_KEY") = none)
    (hclient : client.NewServiceClientWithSharedKeyCredential
      ("https://" ++ w.Getenv "AZURE_STORAGE_ACCOUNT_NAME" ++ ".blob.core.windows.net") = none)
    (hpager : client.NewListBlobsFlatPager w.backend containerName =
      pages.map fun page => .ok (page.map BlobItem.named)) :
    (handleAzureBlobLocks client containerName w).1 = .returned ∧
    (newEvents w (handleAzureBlobLocks client containerName w).2).filter isUnlockPrompt =
      pages.flatten.map (fun n => .stdout (unlockPromptAzureBlob n)) ∧
    (newEvents w (handleAzureBlobLocks client containerName w).2).filter isLineOrPrompt =
      pages.flatten.flatMap (fun n => [.stdout (blobLine n), .stdout (unlockPromptAzureBlob n)]) ∧
    (newEvents w (handleAzureBlobLocks client containerName w).2).filter isDelete =
      (confirmed pages.flatten w.stdin).map (fun n => .deleteBlob containerName n) := by
  have hpager' : client.NewListBlobsFlatPager w.backend containerName =
      (pages.map (List.map BlobItem.named)).map Except.ok := by
    rw [hpager, List.map_map]; rfl
  have hflat : (pages.map (List.map BlobItem.named)).flatten =
      pages.flatten.map BlobItem.named := by
    induction pages with
    | nil => rfl
    | cons p ps ih => simp [List.flatten]
  rw [handleAzureBlobLocks,
    listAzureBlobLocks_ok client containerName w _ hcred hclient hpager', hflat]
  simp only []
  split
  · rename_i h0
    have hl : pages.flatten = [] := by
      rw [List.length_map] at h0
      exact List.length_eq_zero.mp h0
    rw [hl]
    refine ⟨rfl, ?_, ?_, ?_⟩ <;>
      rw [newEvents_append _ _ _
        (by simp only [World.Println, World.emit, List.append_assoc]; rfl)] <;>
      simp [List.filter_append, isUnlockPrompt, isLineOrPrompt, isRecordLine, isDelete,
        HasPrefix, List.isPrefixOf, confirmed]
  · have hext := Extends.trans (show Extends w _ from ⟨_, by
        simp only [World.Println, World.emit, List.append_assoc]; rfl⟩)
      (unlockAzureBlobLocks_extends client containerName (pages.flatten.map BlobItem.named)
        (World.Println ⟨w.stdin, w.env, w.backend,
          w.trace ++ [.newSharedKeyCredential (w.Getenv "AZURE_STORAGE_ACCOUNT_NAME")
              (w.Getenv "AZURE_STORAGE_ACCOUNT_KEY"),
            .newServiceClient ("https://" ++ w.Getenv "AZURE_STORAGE_ACCOUNT_NAME" ++
              ".blob.core.windows.net")] ++
            List.replicate (pages.map (List.map BlobItem.named)).length
              (.nextPage containerName)⟩ "Current locks in Azure Blob container:"))
    refine ⟨unlockAzureBlobLocks_returned _ _ _ _, ?_, ?_, ?_⟩
    · refine filter_newEvents _ _ _ _ hext ?_
      rw [unlockAzureBlobLocks_prompts]
      simp [World.Println, World.emit, List.filter_append, isUnlockPrompt, HasPrefix,
        List.isPrefixOf]
    · refine filter_newEvents _ _ _ _ hext ?_
      rw [unlockAzureBlobLocks_lines]
      simp [World.Println, World.emit, List.filter_append, isLineOrPrompt, isRecordLine,
        isUnlockPrompt, HasPrefix, List.isPrefixOf]
    · refine filter_newEvents _ _ _ _ hext ?_
      rw [unlockAzureBlobLocks_deletes]
      simp [World.Println, World.emit, List.filter_append, isDelete]

/-- C4 (a failed delete is not fatal, both backends).  Whatever the backend
answers to the delete calls, success or error, once the listing has succeeded
(for the container: with blobs that carry their name) the handler returns
normally and the unlock prompts it issues are exactly one per listed record, in
listing order: an error of the delete of one record does not keep the next
record from being offered. -/
theorem failed_delete_not_fatal {σ : Type} (svc : AWS σ) (client : Azure σ)
    (tableName containerName : String) (wd wa : World σ)
    (out : ScanOutput) (b : σ) (locks : List DynamoDBLock) (pages : List (List String))
    (hs : svc.NewSession (wd.Getenv "AWS_REGION") = none)
    (hscan : svc.Scan wd.backend tableName none = (.ok out, b))
    (hdec : UnmarshalListOfMaps out.Items = .ok locks)
    (hcred : client.NewSharedKeyCredential (wa.Getenv "AZURE_STORAGE_ACCOUNT_NAME")
      (wa.Getenv "AZURE_STORAGE_ACCOUNT_KEY") = none)
    (hclient : client.NewServiceClientWithSharedKeyCredential
      ("https://" ++ wa.Getenv "AZURE_STORAGE_ACCOUNT_NAME" ++ ".blob.core.windows.net") = none)
    (hpager : client.NewListBlobsFlatPager wa.backend containerName =
      pages.map fun page => .ok (page.map BlobItem.named)) :
    (handleDynamoDBLocks svc tableName wd).1 = .returned ∧
    (newEvents wd (handleDynamoDBLocks svc tableName wd).2).filter isUnlockPrompt =
      locks.map (fun l => .stdout (unlockPromptDynamoDB l.LockID)) ∧
    (handleAzureBlobLocks client containerName wa).1 = .returned ∧
    (newEvents wa (handleAzureBlobLocks client containerName wa).2).filter isUnlockPrompt =
      pages.flatten.map (fun n => .stdout (unlockPromptAzureBlob n)) := by
  have hd := handleDynamoDBLocks_pass svc tableName wd out b locks hs hscan hdec
  have ha := handleAzureBlobLocks_pass client containerName wa pages hcred hclient hpager
  exact ⟨hd.1, hd.2.1, ha.1, ha.2.1⟩

/-- Witness of C4: both deletes of scenario A fail, on a table and on a
container of two locks, and both locks are still offered. -/
theorem failed_delete_not_fatal_witness :
    (handleDynamoDBLocks (Cloud.awsDeleteFails "AccessDenied") "terraform-locks"
      (World.start scenarioA ["y\n", "y\n"])).1 = .returned ∧
    (newEvents (World.start scenarioA ["y\n", "y\n"])
      (handleDynamoDBLocks (Cloud.awsDeleteFails "AccessDenied") "terraform-locks"
        (World.start scenarioA ["y\n", "y\n"])).2).filter isUnlockPrompt =
      [.stdout (unlockPromptDynamoDB "L1"), .stdout (unlockPromptDynamoDB "L2")] ∧
    (handleAzureBlobLocks (Cloud.azureDeleteFails "AuthorizationFailure") "tfstate"
      (World.start twoBlobPages ["y\n", "y\n"])).1 = .returned ∧
    (newEvents (World.start twoBlobPages ["y\n", "y\n"])
      (handleAzureBlobLocks (Cloud.azureDeleteFails "AuthorizationFailure") "tfstate"
        (World.start twoBlobPages ["y\n", "y\n"])).2).filter isUnlockPrompt =
      [.stdout (unlockPromptAzureBlob "env/dev.tflock"),
        .stdout (unlockPromptAzureBlob "env/prod.tflock")] :=
  failed_delete_not_fatal (Cloud.awsDeleteFails "AccessDenied")
    (Cloud.azureDeleteFails "AuthorizationFailure") "terraform-locks" "tfstate"
    (World.start scenarioA ["y\n", "y\n"]) (World.start twoBlobPages ["y\n", "y\n"])
    ⟨[[("LockID", .S "L1"), ("Info", .S "build"), ("Operation", .S "apply")],
      [("LockID", .S "L2"), ("Info", .S "plan"), ("Operation", .S "plan")]], none⟩
    scenarioA [⟨"L1", "build", "apply"⟩, ⟨"L2", "plan", "plan"⟩]
    [["env/dev.tflock"], ["env/prod.tflock"]] rfl rfl rfl rfl rfl rfl

/-- C5 (a failed listing is fatal, both backends).  When the `Scan` fails, or
when a page of the blob pager fails after any number of good pages, the handler
logs the failure and ends the process with status 1; up to that point nothing
was written to standard output (no record line, no prompt) and no delete was
called. -/
theorem failed_listing_fatal {σ : Type} (svc : AWS σ) (client : Azure σ)
    (tableName containerName : String) (wd wa : World σ)
    (errD errA : String) (b : σ) (pages : List (List BlobItem)) (rest : Pager)
    (hs : svc.NewSession (wd.Getenv "AWS_REGION") = none)
    (hscan : svc.Scan wd.backend tableName none = (.error errD, b))
    (hcred : client.NewSharedKeyCredential (wa.Getenv "AZURE_STORAGE_ACCOUNT_NAME")
      (wa.Getenv "AZURE_STORAGE_ACCOUNT_KEY") = none)
    (hclient : client.NewServiceClientWithSharedKeyCredential
      ("https://" ++ wa.Getenv "AZURE_STORAGE_ACCOUNT_NAME" ++ ".blob.core.windows.net") = none)
    (hpager : client.NewListBlobsFlatPager wa.backend containerName =
      pages.map Except.ok ++ .error errA :: rest) :
    handleDynamoDBLocks svc tableName wd =
      (.exited 1, ⟨wd.stdin, wd.env, b,
        wd.trace ++ [.newSession (wd.Getenv "AWS_REGION"), .scan tableName none,
          .logged ("Failed to scan DynamoDB table: " ++ errD)]⟩) ∧
    handleAzureBlobLocks client containerName wa =
      (.exited 1, ⟨wa.stdin, wa.env, wa.backend,
        wa.trace ++ [.newSharedKeyCredential (wa.Getenv "AZURE_STORAGE_ACCOUNT_NAME")
            (wa.Getenv "AZURE_STORAGE_ACCOUNT_KEY"),
          .newServiceClient ("https://" ++ wa.Getenv "AZURE_STORAGE_ACCOUNT_NAME" ++
            ".blob.core.windows.net")] ++
          List.replicate (pages.length + 1) (.nextPage containerName) ++
          [.logged ("Failed to list blobs: " ++ errA)]⟩) ∧
    (newEvents wd (handleDynamoDBLocks svc tableName wd).2).filter isOutputOrDelete = [] ∧
    (newEvents wa (handleAzureBlobLocks client containerName wa).2).filter isOutputOrDelete = [] ∧
    exitStatus (handleDynamoDBLocks svc tableName wd).1 = 1 ∧
    exitStatus (handleAzureBlobLocks client containerName wa).1 = 1 := by
  have hd : handleDynamoDBLocks svc tableName wd =
      (.exited 1, ⟨wd.stdin, wd.env, b,
        wd.trace ++ [.newSession (wd.Getenv "AWS_REGION"), .scan tableName none,
          .logged ("Failed to scan DynamoDB table: " ++ errD)]⟩) := by
    rw [handleDynamoDBLocks, scanDynamoDBLocks_error svc tableName wd errD b hs hscan]
  have ha : handleAzureBlobLocks client containerName wa =
      (.exited 1, ⟨wa.stdin, wa.env, wa.backend,
        wa.trace ++ [.newSharedKeyCredential (wa.Getenv "AZURE_STORAGE_ACCOUNT_NAME")
            (wa.Getenv "AZURE_STORAGE_ACCOUNT_KEY"),
          .newServiceClient ("https://" ++ wa.Getenv "AZURE_STORAGE_ACCOUNT_NAME" ++
            ".blob.core.windows.net")] ++
          List.replicate (pages.length + 1) (.nextPage containerName) ++
          [.logged ("Failed to list blobs: " ++ errA)]⟩) := by
    rw [handleAzureBlobLocks,
      listAzureBlobLocks_error client containerName wa pages errA rest hcred hclient hpager]
  refine ⟨hd, ha, ?_, ?_, ?_, ?_⟩
  · rw [hd, newEvents_append _ _ _ rfl]
    simp [isOutputOrDelete, isStdout, isDelete]
  · rw [ha, newEvents_append _ _ _ (by simp only [List.append_assoc]; rfl)]
    simp [List.filter_append, isOutputOrDelete, isStdout, isDelete]
  · rw [hd]; rfl
  · rw [ha]; rfl

/-- Witness of C5: a table whose scan is refused, and a container whose
second page fails after a first page with one blob. -/
theorem failed_listing_fatal_witness :
    handleDynamoDBLocks (failingAWS Cloud "ProvisionedThroughputExceeded") "terraform-locks"
        (World.start scenarioA ["y\n"]) =
      (.exited 1, ⟨["y\n"], [], scenarioA,
        [.newSession "", .scan "terraform-locks" none,
          .logged "Failed to scan DynamoDB table: ProvisionedThroughputExceeded"]⟩) ∧
    handleAzureBlobLocks (failingAzure Cloud [[BlobItem.named "env/dev.tflock"]] "timeout")
        "tfstate" (World.start twoBlobPages ["y\n"]) =
      (.exited 1, ⟨["y\n"], [], twoBlobPages,
        [.newSharedKeyCredential "" "", .newServiceClient "https://.blob.core.windows.net",
          .nextPage "tfstate", .nextPage "tfstate", .logged "Failed to list blobs: timeout"]⟩) ∧
    (newEvents (World.start scenarioA ["y\n"])
      (handleDynamoDBLocks (failingAWS Cloud "ProvisionedThroughputExceeded") "terraform-locks"
        (World.start scenarioA ["y\n"])).2).filter isOutputOrDelete = [] ∧
    (newEvents (World.start twoBlobPages ["y\n"])
      (handleAzureBlobLocks (failingAzure Cloud [[BlobItem.named "env/dev.tflock"]] "timeout")
        "tfstate" (World.start twoBlobPages ["y\n"])).2).filter isOutputOrDelete = [] ∧
    exitStatus (handleDynamoDBLocks (failingAWS Cloud "ProvisionedThroughputExceeded")
      "terraform-locks" (World.start scenarioA ["y\n"])).1 = 1 ∧
    exitStatus (handleAzureBlobLocks
      (failingAzure Cloud [[BlobItem.named "env/dev.tflock"]] "timeout")
      "tfstate" (World.start twoBlobPages ["y\n"])).1 = 1 :=
  failed_listing_fatal (failingAWS Cloud "ProvisionedThroughputExceeded")
    (failingAzure Cloud [[BlobItem.named "env/dev.tflock"]] "timeout")
    "terraform-locks" "tfstate" (World.start scenarioA ["y\n"]) (World.start twoBlobPages ["y\n"])
    "ProvisionedThroughputExceeded" "timeout" scenarioA [[BlobItem.named "env/dev.tflock"]] []
    rfl rfl rfl rfl rfl

/-- C6 (empty backend, both backends).  When the scan succeeds with no item,
or every page of the pager succeeds with no blob, the handler returns normally
(exit status 0) and all it writes is the notice that no locks were found: no
prompt is issued and no delete is called. -/
theorem empty_backend {σ : Type} (svc : AWS σ) (client : Azure σ)
    (tableName containerName : String) (wd wa : World σ)
    (out : ScanOutput) (b : σ) (pages : List (List BlobItem))
    (hs : svc.NewSession (wd.Getenv "AWS_REGION") = none)
    (hscan : svc.Scan wd.backend tableName none = (.ok out, b))
    (hitems : out.Items = [])
    (hcred : client.NewSharedKeyCredential (wa.Getenv "AZURE_STORAGE_ACCOUNT_NAME")
      (wa.Getenv "AZURE_STORAGE_ACCOUNT_KEY") = none)
    (hclient : client.NewServiceClientWithSharedKeyCredential
      ("https://" ++ wa.Getenv "AZURE_STORAGE_ACCOUNT_NAME" ++ ".blob.core.windows.net") = none)
    (hpager : client.NewListBlobsFlatPager wa.backend containerName = pages.map Except.ok)
    (hempty : pages.flatten = []) :
    handleDynamoDBLocks svc tableName wd =
      (.returned, ⟨wd.stdin, wd.env, b,
        wd.trace ++ [.newSession (wd.Getenv "AWS_REGION"), .scan tableName none,
          .stdout "No locks found in DynamoDB table.\n"]⟩) ∧
    handleAzureBlobLocks client containerName wa =
      (.returned, ⟨wa.stdin, wa.env, wa.backend,
        wa.trace ++ [.newSharedKeyCredential (wa.Getenv "AZURE_STORAGE_ACCOUNT_NAME")
            (wa.Getenv "AZURE_STORAGE_ACCOUNT_KEY"),
          .newServiceClient ("https://" ++ wa.Getenv "AZURE_STORAGE_ACCOUNT_NAME" ++
            ".blob.core.windows.net")] ++
          List.replicate pages.length (.nextPage containerName) ++
          [.stdout "No locks found in Azure Blob container.\n"]⟩) ∧
    (newEvents wd (handleDynamoDBLocks svc tableName wd).2).filter isOutputOrDelete =
      [.stdout "No locks found in DynamoDB table.\n"] ∧
    (newEvents wa (handleAzureBlobLocks client containerName wa).2).filter isOutputOrDelete =
      [.stdout "No locks found in Azure Blob container.\n"] ∧
    exitStatus (handleDynamoDBLocks svc tableName wd).1 = 0 ∧
    exitStatus (handleAzureBlobLocks client containerName wa).1 = 0 := by
  have hdec : UnmarshalListOfMaps out.Items = .ok [] := by rw [hitems]; rfl
  have hd : handleDynamoDBLocks svc tableName wd =
      (.returned, ⟨wd.stdin, wd.env, b,
        wd.trace ++ [.newSession (wd.Getenv "AWS_REGION"), .scan tableName none,
          .stdout "No locks found in DynamoDB table.\n"]⟩) := by
    rw [handleDynamoDBLocks_ok svc tableName wd out b [] hs hscan hdec]
    rfl
  have ha : handleAzureBlobLocks client containerName wa =
      (.returned, ⟨wa.stdin, wa.env, wa.backend,
        wa.trace ++ [.newSharedKeyCredential (wa.Getenv "AZURE_STORAGE_ACCOUNT_NAME")
            (wa.Getenv "AZURE_STORAGE_ACCOUNT_KEY"),
          .newServiceClient ("https://" ++ wa.Getenv "AZURE_STORAGE_ACCOUNT_NAME" ++
            ".blob.core.windows.net")] ++
          List.replicate pages.length (.nextPage containerName) ++
          [.stdout "No locks found in Azure Blob container.\n"]⟩) := by
    rw [handleAzureBlobLocks,
      listAzureBlobLocks_ok client containerName wa pages hcred hclient hpager, hempty]
    rfl
  refine ⟨hd, ha, ?_, ?_, ?_, ?_⟩
  · rw [hd, newEvents_append _ _ _ rfl]
    simp [isOutputOrDelete, isStdout, isDelete]
  · rw [ha, newEvents_append _ _ _ (by simp only [List.append_assoc]; rfl)]
    simp [List.filter_append, isOutputOrDelete, isStdout, isDelete]
  · rw [hd]; rfl
  · rw [ha]; rfl

/-- Witness of C6: the empty table and the empty container. -/
theorem empty_backend_witness :
    handleDynamoDBLocks Cloud.aws "terraform-locks" (World.start emptyCloud []) =
      (.returned, ⟨[], [], emptyCloud,
        [.newSession "", .scan "terraform-locks" none,
          .stdout "No locks found in DynamoDB table.\n"]⟩) ∧
    handleAzureBlobLocks Cloud.azure "tfstate" (World.start emptyCloud []) =
      (.returned, ⟨[], [], emptyCloud,
        [.newSharedKeyCredential "" "", .newServiceClient "https://.blob.core.windows.net",
          .nextPage "tfstate", .stdout "No locks found in Azure Blob container.\n"]⟩) ∧
    (newEvents (World.start emptyCloud [])
      (handleDynamoDBLocks Cloud.aws "terraform-locks"
        (World.start emptyCloud [])).2).filter isOutputOrDelete =
      [.stdout "No locks found in DynamoDB table.\n"] ∧
    (newEvents (World.start emptyCloud [])
      (handleAzureBlobLocks Cloud.azure "tfstate"
        (World.start emptyCloud [])).2).filter isOutputOrDelete =
      [.stdout "No locks found in Azure Blob container.\n"] ∧
    exitStatus (handleDynamoDBLocks Cloud.aws "terraform-locks"
      (World.start emptyCloud [])).1 = 0 ∧
    exitStatus (handleAzureBlobLocks Cloud.azure "tfstate" (World.start emptyCloud [])).1 = 0 :=
  empty_backend Cloud.aws Cloud.azure "terraform-locks" "tfstate"
    (World.start emptyCloud []) (World.start emptyCloud []) ⟨[], none⟩ emptyCloud [[]]
    rfl rfl rfl rfl rfl rfl rfl

/-- C9, counterexample.  In scenario A (answers `y`, `n`) the line of `L2` is
printed after the operator has been asked about `L1` and `L1` has been
deleted: the record lines do not all precede the prompts. -/
theorem inventory_interleaved_with_prompts :
    (handleDynamoDBLocks Cloud.aws "terraform-locks"
        (World.start scenarioA ["y\n", "n\n"])).2.trace =
      [.newSession "", .scan "terraform-locks" none,
        .stdout "Current locks in DynamoDB table:\n",
        .stdout "LockID: L1, Info: build, Operation: apply\n",
        .stdout "Do you want to unlock LockID L1? (y/n): ",
        .deleteItem "terraform-locks" "L1",
        .stdout "Deleted lock with LockID L1\n",
        .stdout "LockID: L2, Info: plan, Operation: plan\n",
        .stdout "Do you want to unlock LockID L2? (y/n): "] ∧
    ¬ LinesBeforePrompts (handleDynamoDBLocks Cloud.aws "terraform-locks"
        (World.start scenarioA ["y\n", "n\n"])).2.trace :=
  ⟨by decide, by decide⟩

/-- C9, amended (both backends).  Once the listing has succeeded (for the
container: with blobs that carry their name), the record lines and the unlock
prompts of the handler alternate: for each listed record,
in listing order, its line and directly after it its own prompt; the line of a
record is therefore printed before the prompt of that record and after the
prompts of the records listed before it. -/
theorem inventory_line_then_prompt {σ : Type} (svc : AWS σ) (client : Azure σ)
    (tableName containerName : String) (wd wa : World σ)
    (out : ScanOutput) (b : σ) (locks : List DynamoDBLock) (pages : List (List String))
    (hs : svc.NewSession (wd.Getenv "AWS_REGION") = none)
    (hscan : svc.Scan wd.backend tableName none = (.ok out, b))
    (hdec : UnmarshalListOfMaps out.Items = .ok locks)
    (hcred : client.NewSharedKeyCredential (wa.Getenv "AZURE_STORAGE_ACCOUNT_NAME")
      (wa.Getenv "AZURE_STORAGE_ACCOUNT_KEY") = none)
    (hclient : client.NewServiceClientWithSharedKeyCredential
      ("https://" ++ wa.Getenv "AZURE_STORAGE_ACCOUNT_NAME" ++ ".blob.core.windows.net") = none)
    (hpager : client.NewListBlobsFlatPager wa.backend containerName =
      pages.map fun page => .ok (page.map BlobItem.named)) :
    (newEvents wd (handleDynamoDBLocks svc tableName wd).2).filter isLineOrPrompt =
      locks.flatMap (fun l => [.stdout (lockLine l), .stdout (unlockPromptDynamoDB l.LockID)]) ∧
    (newEvents wa (handleAzureBlobLocks client containerName wa).2).filter isLineOrPrompt =
      pages.flatten.flatMap
        (fun n => [.stdout (blobLine n), .stdout (unlockPromptAzureBlob n)]) := by
  have hd := handleDynamoDBLocks_pass svc tableName wd out b locks hs hscan hdec
  have ha := handleAzureBlobLocks_pass client containerName wa pages hcred hclient hpager
  exact ⟨hd.2.2.1, ha.2.2.1⟩

/-- Witness of the amended C9: scenario A and a container of two blobs. -/
theorem inventory_line_then_prompt_witness :
    (newEvents (World.start scenarioA ["y\n", "n\n"])
      (handleDynamoDBLocks Cloud.aws "terraform-locks"
        (World.start scenarioA ["y\n", "n\n"])).2).filter isLineOrPrompt =
      [.stdout "LockID: L1, Info: build, Operation: apply\n",
        .stdout "Do you want to unlock LockID L1? (y/n): ",
        .stdout "LockID: L2, Info: plan, Operation: plan\n",
        .stdout "Do you want to unlock LockID L2? (y/n): "] ∧
    (newEvents (World.start twoBlobPages ["y\n"])
      (handleAzureBlobLocks Cloud.azure "tfstate"
        (World.start twoBlobPages ["y\n"])).2).filter isLineOrPrompt =
      [.stdout "BlobName: env/dev.tflock\n",
        .stdout "Do you want to unlock Blob env/dev.tflock? (y/n): ",
        .stdout "BlobName: env/prod.tflock\n",
        .stdout "Do you want to unlock Blob env/prod.tflock? (y/n): "] :=
  inventory_line_then_prompt Cloud.aws Cloud.azure "terraform-locks" "tfstate"
    (World.start scenarioA ["y\n", "n\n"]) (World.start twoBlobPages ["y\n"])
    ⟨[[("LockID", .S "L1"), ("Info", .S "build"), ("Operation", .S "apply")],
      [("LockID", .S "L2"), ("Info", .S "plan"), ("Operation", .S "plan")]], none⟩
    scenarioA [⟨"L1", "build", "apply"⟩, ⟨"L2", "plan", "plan"⟩]
    [["env/dev.tflock"], ["env/prod.tflock"]] rfl rfl rfl rfl rfl rfl

/-- C3, the code at the failing input.  On a table that `Scan` serves in two
pages, the first page announces a continuation key, the handler calls `Scan`
once, without a start key, and lists the lock of the first page only: `L2` is
never printed nor offered.  The blob handler, on a container served in two
pages, lists the blobs of both. -/
theorem dynamodb_listing_first_page_only :
    Cloud.Scan twoScanPages "terraform-locks" none =
      (.ok ⟨[[("LockID", .S "L1"), ("Info", .S "build"), ("Operation", .S "apply")]],
        some 1⟩, twoScanPages) ∧
    Cloud.Scan twoScanPages "terraform-locks" (some 1) =
      (.ok ⟨[[("LockID", .S "L2"), ("Info", .S "plan"), ("Operation", .S "plan")]],
        none⟩, twoScanPages) ∧
    scanDynamoDBLocks Cloud.aws "terraform-locks" (World.start twoScanPages ["n\n", "n\n"]) =
      .ok ([⟨"L1", "build", "apply"⟩], ⟨["n\n", "n\n"], [], twoScanPages,
        [.newSession "", .scan "terraform-locks" none]⟩) ∧
    (handleDynamoDBLocks Cloud.aws "terraform-locks"
        (World.start twoScanPages ["n\n", "n\n"])).2.trace =
      [.newSession "", .scan "terraform-locks" none,
        .stdout "Current locks in DynamoDB table:\n",
        .stdout "LockID: L1, Info: build, Operation: apply\n",
        .stdout "Do you want to unlock LockID L1? (y/n): "] ∧
    listAzureBlobLocks Cloud.azure "tfstate" (World.start twoBlobPages ["n\n", "n\n"]) =
      .ok ([BlobItem.named "env/dev.tflock", BlobItem.named "env/prod.tflock"],
        ⟨["n\n", "n\n"], [], twoBlobPages,
          [.newSharedKeyCredential "" "", .newServiceClient "https://.blob.core.windows.net",
            .nextPage "tfstate", .nextPage "tfstate"]⟩) :=
  ⟨rfl, rfl, rfl, by decide, rfl⟩

/-- C8, counterexample.  With the input `gcp` the program prints the
invalid-selection message and the process ends with exit status 0. -/
theorem invalid_selection_exits_zero :
    main Cloud.aws Cloud.azure .run (World.start scenarioA ["gcp\n"]) =
      (0, ⟨[], [], scenarioA,
        [.stdout "Which cloud provider are you using? (aws/azure): ",
          .stdout "Invalid cloud provider specified.\n"]⟩) :=
  rfl

/-- C8, amended.  An invalid backend selection (an input that is neither `aws`
nor `azure` ignoring case) is not fatal: the message is printed,
`promptForCloudProvider` returns and the process ends with exit status 0, the
status of every run in which the command returns normally. -/
theorem invalid_selection_status {σ : Type} (svc : AWS σ) (client : Azure σ) (w : World σ)
    (haws : EqIgnoreCase (TrimSpace w.ReadString.1) "aws" = false)
    (hazure : EqIgnoreCase (TrimSpace w.ReadString.1) "azure" = false) :
    main svc client .run w =
      (0, ⟨w.stdin.tail, w.env, w.backend,
        w.trace ++ [.stdout "Which cloud provider are you using? (aws/azure): ",
          .stdout "Invalid cloud provider specified.\n"]⟩) ∧
    (∀ w' : World σ, (promptForCloudProvider svc client w').1 = .returned →
      (main svc client .run w').1 = 0) := by
  constructor
  · simp only [main, promptForCloudProvider_eq svc client w, haws, hazure]
    rfl
  · intro w' h
    simp only [main, h, exitStatus]

/-- Witness of the amended C8: the input `gcp`. -/
theorem invalid_selection_status_witness :
    main Cloud.aws Cloud.azure .run (World.start scenarioA ["gcp\n"]) =
      (0, ⟨[], [], scenarioA,
        [.stdout "Which cloud provider are you using? (aws/azure): ",
          .stdout "Invalid cloud provider specified.\n"]⟩) ∧
    (∀ w' : World Cloud, (promptForCloudProvider Cloud.aws Cloud.azure w').1 = .returned →
      (main Cloud.aws Cloud.azure .run w').1 = 0) :=
  invalid_selection_status Cloud.aws Cloud.azure (World.start scenarioA ["gcp\n"])
    (by decide) (by decide)

theorem fieldByName_name (f : Field) : fieldByName f.Name = some f := by
  cases f <;> decide

theorem Field.name_injective (f g : Field) (h : f.Name = g.Name) : f = g := by
  cases f <;> cases g <;> first | rfl | (exact absurd h (by decide))

theorem DynamoDBLock.get_set (lock : DynamoDBLock) (f g : Field) (v : String) :
    (lock.set g v).get f = if f = g then v else lock.get f := by
  cases f <;> cases g <;> rfl

theorem decodeString_attrText (av : AttributeValue) (v : String)
    (h : decodeString av = .ok v) : attrText (some av) = v := by
  cases av <;> simp [decodeString] at h <;> simp [attrText, h]

/-- Field by field, decoding leaves the text of the attribute of that name, or
the previous value of the field when the item has no such attribute. -/
theorem decodeInto_get (item : Item) (acc lock : DynamoDBLock)
    (hnodup : (item.map Prod.fst).Nodup)
    (hexact : ∀ kv ∈ item, ∀ f, fieldByName kv.1 = some f → kv.1 = f.Name)
    (hok : decodeInto item acc = .ok lock) (f : Field) :
    lock.get f =
      match item.lookup f.Name with
      | some av => attrText (some av)
      | none => acc.get f := by
  induction item generalizing acc with
  | nil =>
    simp only [decodeInto, Except.ok.injEq] at hok
    subst hok
    rfl
  | cons kv rest ih =>
    obtain ⟨k, av⟩ := kv
    have hnd : (rest.map Prod.fst).Nodup := (List.nodup_cons.mp hnodup).2
    have hk : k ∉ rest.map Prod.fst := (List.nodup_cons.mp hnodup).1
    have hex : ∀ kv ∈ rest, ∀ f, fieldByName kv.1 = some f → kv.1 = f.Name :=
      fun kv hkv => hexact kv (List.mem_cons_of_mem _ hkv)
    rw [decodeInto] at hok
    cases hfb : fieldByName k with
    | none =>
      rw [hfb] at hok
      have hne : (f.Name == k) = false := by
        rw [beq_eq_false_iff_ne]
        intro h
        rw [← h, fieldByName_name] at hfb
        exact absurd hfb (by simp)
      rw [List.lookup_cons, hne]
      exact ih acc hnd hex hok
    | some g =>
      rw [hfb] at hok
      have hkg : k = g.Name := hexact (k, av) (List.mem_cons_self _ _) g hfb
      cases hds : decodeString av with
      | error e => rw [hds] at hok; exact absurd hok (by simp)
      | ok v =>
        rw [hds] at hok
        have h := ih (acc.set g v) hnd hex hok
        by_cases hfg : f = g
        · subst hfg
          have hlk : rest.lookup f.Name = none := by
            rw [List.lookup_eq_none_iff]
            intro p hp
            rw [bne_iff_ne]
            intro heq
            apply hk
            rw [hkg, heq]
            exact List.mem_map_of_mem _ hp
          rw [List.lookup_cons, hkg, beq_self_eq_true, h, hlk]
          simp only [DynamoDBLock.get_set, if_true]
          exact (decodeString_attrText av v hds).symm
        · have hne : (f.Name == k) = false := by
            rw [beq_eq_false_iff_ne, hkg]
            exact fun hn => hfg (Field.name_injective f g hn)
          rw [List.lookup_cons, hne, h, DynamoDBLock.get_set, if_neg hfg]

/-- Attributes whose name resolves to no field of the struct are skipped. -/
theorem decodeInto_filter (item : Item) (acc : DynamoDBLock) :
    decodeInto (item.filter fun kv => (fieldByName kv.1).isSome) acc = decodeInto item acc := by
  induction item generalizing acc with
  | nil => rfl
  | cons kv rest ih =>
    obtain ⟨k, av⟩ := kv
    cases hfb : fieldByName k with
    | none => simp [List.filter_cons, hfb, decodeInto, ih]
    | some g =>
      simp only [List.filter_cons, hfb, Option.isSome_some, if_true, decodeInto]
      cases decodeString av with
      | error e => rfl
      | ok v => exact ih _

/-- C10, counterexample.  An item with the attributes `Who` and `Created`
besides `LockID`, `Info` and `Operation` decodes into the record of its three
named attributes alone, and nothing the handler prints shows the values of
`Who` and `Created`. -/
theorem extra_attributes_not_shown :
    decodeItem [("LockID", .S "L1"), ("Info", .S "build"), ("Operation", .S "apply"),
        ("Who", .S "alice"), ("Created", .N "1700000000")] =
      .ok ⟨"L1", "build", "apply"⟩ ∧
    (handleDynamoDBLocks Cloud.aws "terraform-locks"
        (World.start tableWithExtras ["n\n"])).2.trace =
      [.newSession "", .scan "terraform-locks" none,
        .stdout "Current locks in DynamoDB table:\n",
        .stdout "LockID: L1, Info: build, Operation: apply\n",
        .stdout "Do you want to unlock LockID L1? (y/n): "] ∧
    (handleDynamoDBLocks Cloud.aws "terraform-locks"
        (World.start tableWithExtras ["n\n"])).2.trace.filter
      (fun e => shows e "alice" || shows e "1700000000") = [] :=
  ⟨rfl, by decide, by decide⟩

/-- C10, amended.  For a scanned item whose attribute names are distinct and
spell the fields they resolve to exactly, the record built from it has as
identity the value of the attribute `LockID` and as display information the
values of `Info` and `Operation` only (the empty string for an absent one);
attributes of any other name are dropped, and the line printed for the record
shows the identity, `Info` and `Operation` and nothing else. -/
theorem record_decoding_fixed_fields (item : Item) (lock : DynamoDBLock)
    (hnodup : (item.map Prod.fst).Nodup)
    (hexact : ∀ kv ∈ item, ∀ f, fieldByName kv.1 = some f → kv.1 = f.Name)
    (hok : decodeItem item = .ok lock) :
    lock.LockID = attrText (item.lookup "LockID") ∧
    lock.Info = attrText (item.lookup "Info") ∧
    lock.Operation = attrText (item.lookup "Operation") ∧
    lockLine lock = "LockID: " ++ attrText (item.lookup "LockID") ++ ", Info: " ++
      attrText (item.lookup "Info") ++ ", Operation: " ++
      attrText (item.lookup "Operation") ++ "\n" ∧
    decodeItem (item.filter fun kv => (fieldByName kv.1).isSome) = .ok lock := by
  have hget : ∀ f : Field, lock.get f = attrText (item.lookup f.Name) := by
    intro f
    rw [decodeInto_get item ⟨"", "", ""⟩ lock hnodup hexact hok f]
    cases item.lookup f.Name with
    | none => cases f <;> rfl
    | some av => rfl
  have h1 : lock.LockID = attrText (item.lookup "LockID") := hget .LockID
  have h2 : lock.Info = attrText (item.lookup "Info") := hget .Info
  have h3 : lock.Operation = attrText (item.lookup "Operation") := hget .Operation
  refine ⟨h1, h2, h3, ?_, ?_⟩
  · rw [lockLine, h1, h2, h3]
  · rw [decodeItem, decodeInto_filter]
    exact hok

/-- Witness of the amended C10: the item with `Who` and `Created`. -/
theorem record_decoding_fixed_fields_witness :
    (⟨"L1", "build", "apply"⟩ : DynamoDBLock).LockID = "L1" ∧
    (⟨"L1", "build", "apply"⟩ : DynamoDBLock).Info = "build" ∧
    (⟨"L1", "build", "apply"⟩ : DynamoDBLock).Operation = "apply" ∧
    lockLine ⟨"L1", "build", "apply"⟩ = "LockID: L1, Info: build, Operation: apply\n" ∧
    decodeItem [("LockID", .S "L1"), ("Info", .S "build"), ("Operation", .S "apply")] =
      .ok ⟨"L1", "build", "apply"⟩ :=
  record_decoding_fixed_fields
    [("LockID", .S "L1"), ("Info", .S "build"), ("Operation", .S "apply"),
      ("Who", .S "alice"), ("Created", .N "1700000000")]
    ⟨"L1", "build", "apply"⟩ (by decide)
    (by
      intro kv hkv f hf
      simp only [List.mem_cons, List.mem_singleton, List.not_mem_nil, or_false] at hkv
      rcases hkv with rfl | rfl | rfl | rfl | rfl <;> revert hf <;> cases f <;> decide)
    rfl

theorem trim_list (lead core trail : List Char)
    (hlead : ∀ c ∈ lead, IsSpace c = true) (htrail : ∀ c ∈ trail, IsSpace c = true)
    (hhead : ∀ c, core.head? = some c → IsSpace c = false)
    (hlast : ∀ c, core.getLast? = some c → IsSpace c = false) :
    ((lead ++ core ++ trail).dropWhile IsSpace).rdropWhile IsSpace = core := by
  rw [List.append_assoc, List.dropWhile_append_of_pos hlead]
  cases core with
  | nil =>
    have : List.dropWhile IsSpace trail = [] := List.dropWhile_eq_nil_iff.mpr htrail
    simp [this]
  | cons c cs =>
    have hc : ¬ IsSpace c = true := by simp [hhead c rfl]
    rw [List.cons_append, List.dropWhile_cons_of_neg hc, ← List.cons_append]
    rw [List.rdropWhile, List.reverse_append,
      List.dropWhile_append_of_pos (fun a ha => htrail a (List.mem_reverse.mp ha)),
      ← List.rdropWhile, List.rdropWhile_eq_self_iff]
    intro hne
    have := hlast _ (List.getLast?_eq_getLast _ hne)
    simp [this]

theorem trimSpace_line (t : Typed) (ht : t.wellFormed = true) : TrimSpace t.line = t.text := by
  simp only [Typed.wellFormed, Blank, Trimmed, Bool.and_eq_true, List.all_eq_true] at ht
  obtain ⟨⟨hlead, hh, hl⟩, htrail⟩ := ht
  apply String.ext
  simp only [TrimSpace, Typed.line, String.data_append]
  apply trim_list _ _ _ hlead htrail
  · intro c hc
    rw [hc] at hh
    simpa using hh
  · intro c hc
    rw [hc] at hl
    simpa using hl

theorem affirmative_line (t : Typed) (ht : t.wellFormed = true) :
    affirmative (TrimSpace t.line) = saidYes t := by
  rw [trimSpace_line t ht]
  rfl

theorem confirmed_lines {α : Type} (records : List α) (answers : List Typed)
    (hwf : ∀ a ∈ answers, a.wellFormed = true) :
    confirmed records (answers.map Typed.line) = confirmedBy records answers := by
  induction records generalizing answers with
  | nil => simp [confirmed, confirmedBy]
  | cons x rest ih =>
    cases answers with
    | nil => simp [confirmed, confirmedBy]
    | cons a more =>
      have ha := affirmative_line a (hwf a (List.mem_cons_self _ _))
      have ih' := ih more (fun b hb => hwf b (List.mem_cons_of_mem _ hb))
      rw [List.map_cons, confirmed_cons, ih', ha]
      unfold confirmedBy
      by_cases h : saidYes a = true <;> simp [List.filter_cons, h]

theorem promptForUnlockDynamoDB_backend {σ : Type} (svc : AWS σ) (tableName lockID : String)
    (w : World σ) :
    (promptForUnlockDynamoDB svc tableName lockID w).backend =
      if affirmative (TrimSpace (w.stdin.headD "")) then
        (svc.DeleteItem w.backend tableName lockID).2
      else w.backend := by
  rw [promptForUnlockDynamoDB_eq, readString_fst]
  split <;> rfl

theorem promptForUnlockAzureBlob_backend {σ : Type} (client : Azure σ)
    (containerName blobName : String) (w : World σ) :
    (promptForUnlockAzureBlob client containerName blobName w).backend =
      if affirmative (TrimSpace (w.stdin.headD "")) then
        (client.Delete w.backend containerName blobName).2
      else w.backend := by
  rw [promptForUnlockAzureBlob_eq, readString_fst]
  split <;> rfl

/-- The backend after the DynamoDB pass: `DeleteItem` applied to the confirmed
locks, in order. -/
theorem unlockDynamoDBLocks_backend {σ : Type} (svc : AWS σ) (tableName : String)
    (locks : List DynamoDBLock) (w : World σ) :
    (unlockDynamoDBLocks svc tableName locks w).backend =
      (confirmed locks w.stdin).foldl
        (fun b l => (svc.DeleteItem b tableName l.LockID).2) w.backend := by
  induction locks generalizing w with
  | nil => simp [unlockDynamoDBLocks, confirmed]
  | cons l rest ih =>
    rw [unlockDynamoDBLocks, ih, promptForUnlockDynamoDB_backend, promptForUnlockDynamoDB_stdin]
    rcases w with ⟨si, env, b, tr⟩
    cases si with
    | nil => simp [World.Print, World.emit, trimSpace_empty, confirmed_nil_stdin]
    | cons r rs =>
      rw [confirmed_cons]
      by_cases h : affirmative (TrimSpace r) = true <;> simp [World.Print, World.emit, h]

/-- The backend after the Azure pass: `Delete` applied to the confirmed blobs,
in order. -/
theorem unlockAzureBlobLocks_backend {σ : Type} (client : Azure σ) (containerName : String)
    (names : List String) (w : World σ) :
    (unlockAzureBlobLocks client containerName (names.map BlobItem.named) w).2.backend =
      (confirmed names w.stdin).foldl
        (fun b n => (client.Delete b containerName n).2) w.backend := by
  induction names generalizing w with
  | nil => simp [unlockAzureBlobLocks, confirmed]
  | cons n rest ih =>
    simp only [List.map_cons, unlockAzureBlobLocks, BlobItem.named]
    have ih' := ih (promptForUnlockAzureBlob client containerName n (w.Print (blobLine n)))
    simp only [BlobItem.named] at ih'
    rw [ih', promptForUnlockAzureBlob_backend, promptForUnlockAzureBlob_stdin]
    rcases w with ⟨si, env, b, tr⟩
    cases si with
    | nil => simp [World.Print, World.emit, trimSpace_empty, confirmed_nil_stdin]
    | cons r rs =>
      rw [confirmed_cons]
      by_cases h : affirmative (TrimSpace r) = true <;> simp [World.Print, World.emit, h]

/-- The backend after the DynamoDB handler, once the listing has succeeded. -/
theorem handleDynamoDBLocks_backend {σ : Type} (svc : AWS σ) (tableName : String)
    (w : World σ) (out : ScanOutput) (b : σ) (locks : List DynamoDBLock)
    (hs : svc.NewSession (w.Getenv "AWS_REGION") = none)
    (hscan : svc.Scan w.backend tableName none = (.ok out, b))
    (hdec : UnmarshalListOfMaps out.Items = .ok locks) :
    (handleDynamoDBLocks svc tableName w).2.backend =
      (confirmed locks w.stdin).foldl
        (fun b l => (svc.DeleteItem b tableName l.LockID).2) b := by
  rw [handleDynamoDBLocks_ok svc tableName w out b locks hs hscan hdec]
  split
  · rename_i h0
    have hl : locks = [] := List.length_eq_zero.mp h0
    subst hl
    simp [confirmed]
  · simp only []
    rw [unlockDynamoDBLocks_backend]

/-- The backend after the Azure handler, once the listing has succeeded with
named blobs. -/
theorem handleAzureBlobLocks_backend {σ : Type} (client : Azure σ) (containerName : String)
    (w : World σ) (pages : List (List String))
    (hcred : client.NewSharedKeyCredential (w.Getenv "AZURE_STORAGE_ACCOUNT_NAME")
      (w.Getenv "AZURE_STORAGE_ACCOUNT_KEY") = none)
    (hclient : client.NewServiceClientWithSharedKeyCredential
      ("https://" ++ w.Getenv "AZURE_STORAGE_ACCOUNT_NAME" ++ ".blob.core.windows.net") = none)
    (hpager : client.NewListBlobsFlatPager w.backend containerName =
      pages.map fun page => .ok (page.map BlobItem.named)) :
    (handleAzureBlobLocks client containerName w).2.backend =
      (confirmed pages.flatten w.stdin).foldl
        (fun b n => (client.Delete b containerName n).2) w.backend := by
  have hpager' : client.NewListBlobsFlatPager w.backend containerName =
      (pages.map (List.map BlobItem.named)).map Except.ok := by
    rw [hpager, List.map_map]; rfl
  have hflat : (pages.map (List.map BlobItem.named)).flatten =
      pages.flatten.map BlobItem.named := by
    induction pages with
    | nil => rfl
    | cons p ps ih => simp [List.flatten]
  rw [handleAzureBlobLocks,
    listAzureBlobLocks_ok client containerName w _ hcred hclient hpager', hflat]
  simp only []
  split
  · rename_i h0
    have hl : pages.flatten = [] := by
      rw [List.length_map] at h0
      exact List.length_eq_zero.mp h0
    rw [hl]
    simp [confirmed, World.Println, World.emit]
  · rw [unlockAzureBlobLocks_backend]
    rfl

/-- C1, counterexample.  The operator enters ` y` (with a space before the
letter) at the DynamoDB prompt, and `Y` followed by two spaces at the blob
prompt: neither response is the literal `y` or `Y`, and in both runs the delete
call is made. -/
theorem padded_response_deletes :
    newEvents (World.start scenarioA [" y\n"])
        (promptForUnlockDynamoDB Cloud.aws "terraform-locks" "L1"
          (World.start scenarioA [" y\n"])) =
      [.stdout "Do you want to unlock LockID L1? (y/n): ",
        .deleteItem "terraform-locks" "L1", .stdout "Deleted lock with LockID L1\n"] ∧
    newEvents (World.start twoBlobPages ["Y  \n"])
        (promptForUnlockAzureBlob Cloud.azure "tfstate" "env/dev.tflock"
          (World.start twoBlobPages ["Y  \n"])) =
      [.stdout "Do you want to unlock Blob env/dev.tflock? (y/n): ",
        .deleteBlob "tfstate" "env/dev.tflock", .stdout "Deleted blob env/dev.tflock\n"] ∧
    (" y" : String) ≠ "y" ∧ (" y" : String) ≠ "Y" ∧
    ("Y  " : String) ≠ "y" ∧ ("Y  " : String) ≠ "Y" :=
  ⟨by decide, by decide, by decide, by decide, by decide, by decide⟩

/-- C1, amended (confirmation parsing, both backends).  For whatever the
operator types at an unlock prompt, white space, the text of the response, and
white space up to the line end, the delete is called on the backend (the call
event, the backend state the call returns, then the report of its outcome) if
and only if the text of the response is exactly `y` or `Y`; with every other
text the prompt is the only event and the backend is left as it was: no delete
call, nothing logged.  The responses empty, `n`, `N`, `yes`, `no` and `maybe`
cause no delete call, and the plain `y` and `Y` cause one. -/
theorem confirmation_parsing {σ : Type} (svc : AWS σ) (client : Azure σ)
    (name id : String) (w : World σ) (t : Typed)
    (ht : t.wellFormed = true) (hline : w.ReadString.1 = t.line) :
    (newEvents w (promptForUnlockDynamoDB svc name id w) =
      if t.text = "y" ∨ t.text = "Y" then
        [.stdout (unlockPromptDynamoDB id), .deleteItem name id,
          deleteItemReport id (svc.DeleteItem w.backend name id).1]
      else [.stdout (unlockPromptDynamoDB id)]) ∧
    (newEvents w (promptForUnlockAzureBlob client name id w) =
      if t.text = "y" ∨ t.text = "Y" then
        [.stdout (unlockPromptAzureBlob id), .deleteBlob name id,
          deleteBlobReport id (client.Delete w.backend name id).1]
      else [.stdout (unlockPromptAzureBlob id)]) ∧
    ((promptForUnlockDynamoDB svc name id w).backend =
      if t.text = "y" ∨ t.text = "Y" then (svc.DeleteItem w.backend name id).2
      else w.backend) ∧
    ((promptForUnlockAzureBlob client name id w).backend =
      if t.text = "y" ∨ t.text = "Y" then (client.Delete w.backend name id).2
      else w.backend) ∧
    ((∃ e ∈ newEvents w (promptForUnlockDynamoDB svc name id w), isDelete e = true) ↔
      (t.text = "y" ∨ t.text = "Y")) ∧
    ((∃ e ∈ newEvents w (promptForUnlockAzureBlob client name id w), isDelete e = true) ↔
      (t.text = "y" ∨ t.text = "Y")) ∧
    (∀ r ∈ ["", "n", "N", "yes", "no", "maybe"],
      newEvents (World.start scenarioA [r ++ "\n"])
          (promptForUnlockDynamoDB Cloud.aws "terraform-locks" "L1"
            (World.start scenarioA [r ++ "\n"])) =
        [.stdout "Do you want to unlock LockID L1? (y/n): "] ∧
      newEvents (World.start twoBlobPages [r ++ "\n"])
          (promptForUnlockAzureBlob Cloud.azure "tfstate" "env/dev.tflock"
            (World.start twoBlobPages [r ++ "\n"])) =
        [.stdout "Do you want to unlock Blob env/dev.tflock? (y/n): "]) ∧
    (∀ r ∈ ["y", "Y"],
      newEvents (World.start scenarioA [r ++ "\n"])
          (promptForUnlockDynamoDB Cloud.aws "terraform-locks" "L1"
            (World.start scenarioA [r ++ "\n"])) =
        [.stdout "Do you want to unlock LockID L1? (y/n): ",
          .deleteItem "terraform-locks" "L1", .stdout "Deleted lock with LockID L1\n"] ∧
      newEvents (World.start twoBlobPages [r ++ "\n"])
          (promptForUnlockAzureBlob Cloud.azure "tfstate" "env/dev.tflock"
            (World.start twoBlobPages [r ++ "\n"])) =
        [.stdout "Do you want to unlock Blob env/dev.tflock? (y/n): ",
          .deleteBlob "tfstate" "env/dev.tflock",
          .stdout "Deleted blob env/dev.tflock\n"]) := by
  have haff : affirmative (TrimSpace w.ReadString.1) = true ↔ (t.text = "y" ∨ t.text = "Y") := by
    rw [hline, trimSpace_line t ht]
    exact affirmative_iff _
  have hd : newEvents w (promptForUnlockDynamoDB svc name id w) =
      if t.text = "y" ∨ t.text = "Y" then
        [.stdout (unlockPromptDynamoDB id), .deleteItem name id,
          deleteItemReport id (svc.DeleteItem w.backend name id).1]
      else [.stdout (unlockPromptDynamoDB id)] := by
    rw [promptForUnlockDynamoDB_eq]
    by_cases h : t.text = "y" ∨ t.text = "Y"
    · rw [if_pos (haff.mpr h), if_pos h]
      exact newEvents_append _ _ _ rfl
    · rw [if_neg (fun hx => h (haff.mp hx)), if_neg h]
      exact newEvents_append _ _ _ rfl
  have ha : newEvents w (promptForUnlockAzureBlob client name id w) =
      if t.text = "y" ∨ t.text = "Y" then
        [.stdout (unlockPromptAzureBlob id), .deleteBlob name id,
          deleteBlobReport id (client.Delete w.backend name id).1]
      else [.stdout (unlockPromptAzureBlob id)] := by
    rw [promptForUnlockAzureBlob_eq]
    by_cases h : t.text = "y" ∨ t.text = "Y"
    · rw [if_pos (haff.mpr h), if_pos h]
      exact newEvents_append _ _ _ rfl
    · rw [if_neg (fun hx => h (haff.mp hx)), if_neg h]
      exact newEvents_append _ _ _ rfl
  refine ⟨hd, ha, ?_, ?_, ?_, ?_, by decide, by decide⟩
  · rw [promptForUnlockDynamoDB_eq]
    by_cases h : t.text = "y" ∨ t.text = "Y"
    · rw [if_pos (haff.mpr h), if_pos h]
    · rw [if_neg (fun hx => h (haff.mp hx)), if_neg h]
  · rw [promptForUnlockAzureBlob_eq]
    by_cases h : t.text = "y" ∨ t.text = "Y"
    · rw [if_pos (haff.mpr h), if_pos h]
    · rw [if_neg (fun hx => h (haff.mp hx)), if_neg h]
  · rw [hd]
    by_cases h : t.text = "y" ∨ t.text = "Y"
    · simp [h, isDelete]
    · simp [h, isDelete]
  · rw [ha]
    by_cases h : t.text = "y" ∨ t.text = "Y"
    · simp [h, isDelete]
    · simp [h, isDelete]

/-- Witness of the amended C1: the operator types a space, `Y`, two spaces and
the line end. -/
theorem confirmation_parsing_witness :
    (newEvents (World.start scenarioA [" Y  \r\n"])
        (promptForUnlockDynamoDB Cloud.aws "terraform-locks" "L1"
          (World.start scenarioA [" Y  \r\n"])) =
      [.stdout "Do you want to unlock LockID L1? (y/n): ",
        .deleteItem "terraform-locks" "L1", .stdout "Deleted lock with LockID L1\n"]) ∧
    (newEvents (World.start scenarioA [" Y  \r\n"])
        (promptForUnlockAzureBlob Cloud.azure "terraform-locks" "L1"
          (World.start scenarioA [" Y  \r\n"])) =
      [.stdout "Do you want to unlock Blob L1? (y/n): ",
        .deleteBlob "terraform-locks" "L1", .stdout "Deleted blob L1\n"]) ∧
    ((promptForUnlockDynamoDB Cloud.aws "terraform-locks" "L1"
        (World.start scenarioA [" Y  \r\n"])).backend =
      (Cloud.DeleteItem scenarioA "terraform-locks" "L1").2) ∧
    ((promptForUnlockAzureBlob Cloud.azure "terraform-locks" "L1"
        (World.start scenarioA [" Y  \r\n"])).backend =
      (Cloud.DeleteBlob scenarioA "terraform-locks" "L1").2) ∧
    ((∃ e ∈ newEvents (World.start scenarioA [" Y  \r\n"])
        (promptForUnlockDynamoDB Cloud.aws "terraform-locks" "L1"
          (World.start scenarioA [" Y  \r\n"])), isDelete e = true) ↔
      (("Y" : String) = "y" ∨ ("Y" : String) = "Y")) ∧
    ((∃ e ∈ newEvents (World.start scenarioA [" Y  \r\n"])
        (promptForUnlockAzureBlob Cloud.azure "terraform-locks" "L1"
          (World.start scenarioA [" Y  \r\n"])), isDelete e = true) ↔
      (("Y" : String) = "y" ∨ ("Y" : String) = "Y")) :=
  have h := confirmation_parsing Cloud.aws Cloud.azure "terraform-locks" "L1"
    (World.start scenarioA [" Y  \r\n"]) ⟨" ", "Y", "  \r\n"⟩ (by decide) rfl
  ⟨h.1, h.2.1, h.2.2.1, h.2.2.2.1, h.2.2.2.2.1, h.2.2.2.2.2.1⟩

/-- C2, counterexample.  The operator enters `AwS` with two spaces before it
and a space and a tab after it: the input is not `aws` with its letters in any
case, and the run goes on with the AWS prompts, session and scan. -/
theorem padded_selection_takes_aws_path :
    (promptForCloudProvider Cloud.aws Cloud.azure
        (World.start emptyCloud ["  AwS \t\n", "eu-west-1\n", "terraform-locks\n"])).2.trace =
      [.stdout "Which cloud provider are you using? (aws/azure): ",
        .stdout "Please set AWS_REGION environment variable: ",
        .stdout "Enter the DynamoDB table name for locking: ",
        .newSession "eu-west-1", .scan "terraform-locks" none,
        .stdout "No locks found in DynamoDB table.\n"] ∧
    EqIgnoreCase "  AwS \t" "aws" = false :=
  ⟨by decide, by decide⟩

/-- C2, amended (backend selection).  For whatever the operator types at the
question, white space, the text of the input, and white space up to the line
end, `promptForCloudProvider` goes on with `promptForAWSDetails` exactly when
the text equals `aws` ignoring case, with `promptForAzureDetails` exactly when
it equals `azure` ignoring case, and for every other text it returns after the
question and the invalid-selection message alone: no further line is read, the
environment and the backend are untouched and no SDK call is made.  A plain
`aws` leads to the AWS prompts, session and scan, a plain `AZURE` to the Azure
prompts, credential, client and pager, and `gcp` to the message. -/
theorem backend_selection {σ : Type} (svc : AWS σ) (client : Azure σ) (w : World σ)
    (t : Typed) (ht : t.wellFormed = true) (hline : w.ReadString.1 = t.line) :
    (promptForCloudProvider svc client w =
      if EqIgnoreCase t.text "aws" then
        promptForAWSDetails svc ⟨w.stdin.tail, w.env, w.backend,
          w.trace ++ [.stdout "Which cloud provider are you using? (aws/azure): "]⟩
      else if EqIgnoreCase t.text "azure" then
        promptForAzureDetails client ⟨w.stdin.tail, w.env, w.backend,
          w.trace ++ [.stdout "Which cloud provider are you using? (aws/azure): "]⟩
      else
        (.returned, ⟨w.stdin.tail, w.env, w.backend,
          w.trace ++ [.stdout "Which cloud provider are you using? (aws/azure): ",
            .stdout "Invalid cloud provider specified.\n"]⟩)) ∧
    (promptForCloudProvider Cloud.aws Cloud.azure
        (World.start emptyCloud ["aws\n", "eu-west-1\n", "terraform-locks\n"])).2.trace =
      [.stdout "Which cloud provider are you using? (aws/azure): ",
        .stdout "Please set AWS_REGION environment variable: ",
        .stdout "Enter the DynamoDB table name for locking: ",
        .newSession "eu-west-1", .scan "terraform-locks" none,
        .stdout "No locks found in DynamoDB table.\n"] ∧
    (promptForCloudProvider Cloud.aws Cloud.azure
        (World.start emptyCloud ["AZURE\n", "tfaccount\n", "c2VjcmV0\n", "tfstate\n"])).2.trace =
      [.stdout "Which cloud provider are you using? (aws/azure): ",
        .stdout "Please set AZURE_STORAGE_ACCOUNT_NAME environment variable: ",
        .stdout "Please set AZURE_STORAGE_ACCOUNT_KEY environment variable: ",
        .stdout "Enter the Azure Blob container name for locking: ",
        .newSharedKeyCredential "tfaccount" "c2VjcmV0",
        .newServiceClient "https://tfaccount.blob.core.windows.net",
        .nextPage "tfstate",
        .stdout "No locks found in Azure Blob container.\n"] ∧
    promptForCloudProvider Cloud.aws Cloud.azure (World.start emptyCloud ["gcp\n", "x\n"]) =
      (.returned, ⟨["x\n"], [], emptyCloud,
        [.stdout "Which cloud provider are you using? (aws/azure): ",
          .stdout "Invalid cloud provider specified.\n"]⟩) := by
  refine ⟨?_, by decide, by decide, rfl⟩
  rw [promptForCloudProvider_eq, hline, trimSpace_line t ht]

/-- Witness of the amended C2: `AwS` typed between white space, on the table of
scenario A, with `n` for both locks. -/
theorem backend_selection_witness :
    promptForCloudProvider Cloud.aws Cloud.azure
        (World.start scenarioA ["  AwS \t\n", "eu-west-1\n", "terraform-locks\n", "n\n", "n\n"]) =
      promptForAWSDetails Cloud.aws ⟨["eu-west-1\n", "terraform-locks\n", "n\n", "n\n"], [],
        scenarioA, [.stdout "Which cloud provider are you using? (aws/azure): "]⟩ :=
  (backend_selection Cloud.aws Cloud.azure
    (World.start scenarioA ["  AwS \t\n", "eu-west-1\n", "terraform-locks\n", "n\n", "n\n"])
    ⟨"  ", "AwS", " \t\n"⟩ (by decide) rfl).1

/-- C7 (deletion by identity, on confirmation only, without retry; both
backends).  The operator types one answer per prompt: white space, a text,
white space up to the line end; an answer is affirmative when its text is `y`
or `Y`.  Once the listing has succeeded (for the container: with blobs that
carry their name), the delete calls of the handler are exactly the listed
identities whose answer was affirmative, in listing order, each once and with
the identity of its own record as key, and the backend is left in the state
that `DeleteItem`, respectively `Delete`, returns when applied to these
identities one after the other.  On the table of scenario A with answers `y`
then `n`, over a backend whose delete removes the keyed item, `L1` is gone
afterwards and `L2` is still there; on the container of two blobs with answers
`n` then `Y` the second blob is gone and the first is still there. -/
theorem deletion_by_identity {σ : Type} (svc : AWS σ) (client : Azure σ)
    (tableName containerName : String) (wd wa : World σ)
    (out : ScanOutput) (b : σ) (locks : List DynamoDBLock) (pages : List (List String))
    (answersD answersA : List Typed)
    (hs : svc.NewSession (wd.Getenv "AWS_REGION") = none)
    (hscan : svc.Scan wd.backend tableName none = (.ok out, b))
    (hdec : UnmarshalListOfMaps out.Items = .ok locks)
    (hcred : client.NewSharedKeyCredential (wa.Getenv "AZURE_STORAGE_ACCOUNT_NAME")
      (wa.Getenv "AZURE_STORAGE_ACCOUNT_KEY") = none)
    (hclient : client.NewServiceClientWithSharedKeyCredential
      ("https://" ++ wa.Getenv "AZURE_STORAGE_ACCOUNT_NAME" ++ ".blob.core.windows.net") = none)
    (hpager : client.NewListBlobsFlatPager wa.backend containerName =
      pages.map fun page => .ok (page.map BlobItem.named))
    (htypedD : wd.stdin = answersD.map Typed.line)
    (hwfD : ∀ a ∈ answersD, a.wellFormed = true)
    (htypedA : wa.stdin = answersA.map Typed.line)
    (hwfA : ∀ a ∈ answersA, a.wellFormed = true) :
    (newEvents wd (handleDynamoDBLocks svc tableName wd).2).filter isDelete =
      (confirmedBy locks answersD).map (fun l => .deleteItem tableName l.LockID) ∧
    (handleDynamoDBLocks svc tableName wd).2.backend =
      (confirmedBy locks answersD).foldl
        (fun s l => (svc.DeleteItem s tableName l.LockID).2) b ∧
    (newEvents wa (handleAzureBlobLocks client containerName wa).2).filter isDelete =
      (confirmedBy pages.flatten answersA).map (fun n => .deleteBlob containerName n) ∧
    (handleAzureBlobLocks client containerName wa).2.backend =
      (confirmedBy pages.flatten answersA).foldl
        (fun s n => (client.Delete s containerName n).2) wa.backend ∧
    (handleDynamoDBLocks Cloud.aws "terraform-locks"
        (World.start scenarioA ["y\n", "n\n"])).2.backend.table =
      [[[("LockID", .S "L2"), ("Info", .S "plan"), ("Operation", .S "plan")]]] ∧
    (handleAzureBlobLocks Cloud.azure "tfstate"
        (World.start twoBlobPages ["n\n", "Y\n"])).2.backend.blobs =
      [[BlobItem.named "env/dev.tflock"], []] := by
  have hd := handleDynamoDBLocks_pass svc tableName wd out b locks hs hscan hdec
  have ha := handleAzureBlobLocks_pass client containerName wa pages hcred hclient hpager
  have hbd := handleDynamoDBLocks_backend svc tableName wd out b locks hs hscan hdec
  have hba := handleAzureBlobLocks_backend client containerName wa pages hcred hclient hpager
  rw [htypedD, confirmed_lines locks answersD hwfD] at hd hbd
  rw [htypedA, confirmed_lines pages.flatten answersA hwfA] at ha hba
  exact ⟨hd.2.2.2, hbd, ha.2.2.2, hba, by decide, by decide⟩

/-- Witness of C7: scenario A with the answers `y` (typed after a space) and
`n`, and two blobs with the answers `n` and `Y` (typed before two spaces). -/
theorem deletion_by_identity_witness :
    (newEvents (World.start scenarioA [" y\n", "n\n"])
      (handleDynamoDBLocks Cloud.aws "terraform-locks"
        (World.start scenarioA [" y\n", "n\n"])).2).filter isDelete =
      [.deleteItem "terraform-locks" "L1"] ∧
    (handleDynamoDBLocks Cloud.aws "terraform-locks"
        (World.start scenarioA [" y\n", "n\n"])).2.backend =
      ⟨[[[("LockID", .S "L2"), ("Info", .S "plan"), ("Operation", .S "plan")]]], []⟩ ∧
    (newEvents (World.start twoBlobPages ["n\n", "Y  \n"])
      (handleAzureBlobLocks Cloud.azure "tfstate"
        (World.start twoBlobPages ["n\n", "Y  \n"])).2).filter isDelete =
      [.deleteBlob "tfstate" "env/prod.tflock"] ∧
    (handleAzureBlobLocks Cloud.azure "tfstate"
        (World.start twoBlobPages ["n\n", "Y  \n"])).2.backend =
      ⟨[], [[BlobItem.named "env/dev.tflock"], []]⟩ ∧
    (handleDynamoDBLocks Cloud.aws "terraform-locks"
        (World.start scenarioA ["y\n", "n\n"])).2.backend.table =
      [[[("LockID", .S "L2"), ("Info", .S "plan"), ("Operation", .S "plan")]]] ∧
    (handleAzureBlobLocks Cloud.azure "tfstate"
        (World.start twoBlobPages ["n\n", "Y\n"])).2.backend.blobs =
      [[BlobItem.named "env/dev.tflock"], []] :=
  deletion_by_identity Cloud.aws Cloud.azure "terraform-locks" "tfstate"
    (World.start scenarioA [" y\n", "n\n"]) (World.start twoBlobPages ["n\n", "Y  \n"])
    ⟨[[("LockID", .S "L1"), ("Info", .S "build"), ("Operation", .S "apply")],
      [("LockID", .S "L2"), ("Info", .S "plan"), ("Operation", .S "plan")]], none⟩
    scenarioA [⟨"L1", "build", "apply"⟩, ⟨"L2", "plan", "plan"⟩]
    [["env/dev.tflock"], ["env/prod.tflock"]]
    [⟨" ", "y", "\n"⟩, ⟨"", "n", "\n"⟩] [⟨"", "n", "\n"⟩, ⟨"", "Y", "  \n"⟩]
    rfl rfl rfl rfl rfl rfl rfl (by decide) rfl (by decide)

end TerraformLockChecker
